import Mathlib

/-! os-info: system-state collection subsystem

A shallow embedding of `internal/sysinfo` (Go) and proofs about it.

Conventions of the embedding:

* a Go `string` is a Lean `String`; the text-processing helpers work on its
  list of characters (the inputs are taken to be valid UTF-8, so the runes
  that Go's `strings` and `fmt` packages iterate over are the characters);
* a Go `int` is an `Int`; the only place where the width matters is the
  64-bit range check of `strconv.ParseInt`, which is modelled explicitly;
* the operating system (files, partitions, HTTP, `host.Info`) enters each
  probe as an explicit argument: a failed read is `none`.
-/

set_option autoImplicit false

namespace OsInfo

/-! ## Helpers from the Go standard library -/

/-- The function `strings.HasPrefix`. -/
def hasPrefix (s pre : String) : Bool :=
  pre.data.isPrefixOf s.data

/-- Substring search on character lists: does `sub` occur in the list? -/
def containsChars : List Char → List Char → Bool
  | [], sub => sub.isEmpty
  | c :: t, sub => sub.isPrefixOf (c :: t) || containsChars t sub

/-- The function `strings.Contains`. -/
def stringsContains (s sub : String) : Bool :=
  containsChars s.data sub.data

/-! ## sysinfo.go: `getDaySuffix` -/

/-- The function `getDaySuffix` of `sysinfo.go`; `%` of Go truncates towards
zero, which is `Int.tmod`. -/
def getDaySuffix (day : Int) : String :=
  if day ≥ 11 ∧ day ≤ 13 then "th"
  else
    let r := Int.tmod day 10
    if r = 1 then "st"
    else if r = 2 then "nd"
    else if r = 3 then "rd"
    else "th"

/-- The ordinal-suffix rule in the words of the specification: "th" when
`d mod 100` is 11, 12 or 13, otherwise by the last digit. -/
def ordinalSuffixSpec (d : Int) : String :=
  if d % 100 = 11 ∨ d % 100 = 12 ∨ d % 100 = 13 then "th"
  else if d % 10 = 1 then "st"
  else if d % 10 = 2 then "nd"
  else if d % 10 = 3 then "rd"
  else "th"

/-! ## disk.go: `collectDiskInfo` -/

/-- One entry of `disk.Partitions` (gopsutil `disk.PartitionStat`), reduced to
the fields the probe reads. -/
structure PartitionStat where
  Device : String
  Mountpoint : String
  Fstype : String
  deriving DecidableEq, Repr

/-- Result of `disk.Usage` (gopsutil `disk.UsageStat`), reduced to the fields
the probe reads. -/
structure UsageStat where
  Free : Nat
  Total : Nat
  Used : Nat
  UsedPercent : Float

/-- The struct `DiskInfo` of `disk.go`. -/
structure DiskInfo where
  Free : Nat
  MountPoint : String
  Total : Nat
  Used : Nat
  UsedPercent : Float

/-- The struct `NetworkInfo` of `network.go`. -/
structure NetworkInfo where
  ConnectionType : String
  Country : String
  DNS : List String
  ESSID : String
  ExternalIP : String
  Gateway : String
  Interface : String
  IPAddress : String
  MACAddress : String
  deriving DecidableEq, Repr

/-- The struct `Info` of `sysinfo.go`. -/
structure Info where
  AdapterOnline : Bool
  BatteryPercent : Int
  BatteryStatus : String
  BatteryTemp : Float
  DateTime : String
  Disks : List DiskInfo
  Distribution : String
  Networks : List NetworkInfo
  OSType : String
  OSVersion : String
  Uptime : String

/-- The zero value `&Info{}` that `New` starts from. -/
def Info.zero : Info :=
  { AdapterOnline := false, BatteryPercent := 0, BatteryStatus := "",
    BatteryTemp := 0.0, DateTime := "", Disks := [], Distribution := "",
    Networks := [], OSType := "", OSVersion := "", Uptime := "" }

/-- The denylist `virtualFs` of `isVirtualFilesystem`. -/
def virtualFs : List String :=
  ["tmpfs", "devtmpfs", "sysfs", "proc", "devpts",
   "cgroup", "cgroup2", "pstore", "bpf", "tracefs",
   "debugfs", "securityfs", "sockfs", "pipefs",
   "configfs", "selinuxfs", "autofs", "mqueue",
   "hugetlbfs", "fusectl", "fuse.gvfsd-fuse",
   "fuse.portal", "nsfs", "overlay", "squashfs"]

/-- The loop of `isVirtualFilesystem`: return true at the first denylisted
name contained in `fstype`. -/
def containsAnyOf (fstype : String) : List String → Bool
  | [] => false
  | vfs :: rest => if stringsContains fstype vfs then true else containsAnyOf fstype rest

/-- The function `isVirtualFilesystem` of `disk.go`. -/
def isVirtualFilesystem (fstype : String) : Bool :=
  containsAnyOf fstype virtualFs

/-- The list `virtualPrefixes` of `isVirtualDevice`. -/
def virtualPrefixes : List String :=
  ["none", "udev", "tmpfs", "cgmfs", "overlay"]

/-- The loop of `isVirtualDevice`: return true at the first listed prefix of
`device`. -/
def hasAnyPrefixOf (device : String) : List String → Bool
  | [] => false
  | pre :: rest => if hasPrefix device pre then true else hasAnyPrefixOf device rest

/-- The function `isVirtualDevice` of `disk.go`. -/
def isVirtualDevice (device : String) : Bool :=
  if hasPrefix device "/dev/loop" then true
  else if stringsContains device "/snap/" then true
  else hasAnyPrefixOf device virtualPrefixes

/-- The entry appended for a partition whose usage query succeeded. -/
def diskEntry (partition : PartitionStat) (usage : UsageStat) : DiskInfo :=
  { Free := usage.Free, MountPoint := partition.Mountpoint, Total := usage.Total,
    Used := usage.Used, UsedPercent := usage.UsedPercent }

/-- One iteration of the loop of `collectDiskInfo`: each `continue` leaves the
list as it is, the last statement appends. `usage` is `disk.Usage`, with
`none` for an error. -/
def collectDiskStep (usage : String → Option UsageStat) (disks : List DiskInfo)
    (partition : PartitionStat) : List DiskInfo :=
  if isVirtualFilesystem partition.Fstype then disks
  else if isVirtualDevice partition.Device then disks
  else if hasPrefix partition.Mountpoint "/boot" then disks
  else
    match usage partition.Mountpoint with
    | none => disks
    | some u => disks ++ [diskEntry partition u]

/-- The method `collectDiskInfo` of `disk.go`; `partitions` is the result of
`disk.Partitions(false)`, `none` for an error. -/
def collectDiskInfo (partitions : Option (List PartitionStat))
    (usage : String → Option UsageStat) (i : Info) : Info :=
  match partitions with
  | none => i
  | some ps => { i with Disks := ps.foldl (collectDiskStep usage) i.Disks }

/-- The three exclusion rules and the usage query in the words of the
specification: the partition survives when its filesystem type contains no
denylisted name, its device neither starts with "/dev/loop" nor contains
"/snap/" nor starts with a listed prefix, its mountpoint does not start with
"/boot", and its usage query succeeds. -/
def survivesSpec (usage : String → Option UsageStat) (p : PartitionStat) : Bool :=
  virtualFs.all (fun v => !stringsContains p.Fstype v) &&
  (!hasPrefix p.Device "/dev/loop" && !stringsContains p.Device "/snap/" &&
    virtualPrefixes.all (fun pre => !hasPrefix p.Device pre)) &&
  !hasPrefix p.Mountpoint "/boot" &&
  (usage p.Mountpoint).isSome

/-- A small partition table used to run the disk probe on a concrete input. -/
def samplePartitions : List PartitionStat :=
  [ { Device := "/dev/sda2", Mountpoint := "/", Fstype := "ext4" },
    { Device := "tmpfs", Mountpoint := "/run", Fstype := "tmpfs" },
    { Device := "/dev/sda1", Mountpoint := "/boot/efi", Fstype := "vfat" },
    { Device := "/dev/loop3", Mountpoint := "/snap/core/1", Fstype := "squashfs" },
    { Device := "/dev/sdb1", Mountpoint := "/mnt/usb", Fstype := "ext4" },
    { Device := "/dev/sdc1", Mountpoint := "/data", Fstype := "fuseblk" } ]

/-- A usage oracle for `samplePartitions`: the query for "/mnt/usb" fails. -/
def sampleUsage (mountpoint : String) : Option UsageStat :=
  if mountpoint = "/mnt/usb" then none
  else some { Free := 40, Total := 100, Used := 60, UsedPercent := 60.0 }

/-! ## Text helpers: `strings.Split`, `strings.Fields`, `strings.TrimSpace` -/

/-- The predicate `unicode.IsSpace`; the table `space` of `fmt/scan.go` lists
the same code points. -/
def isSpace (c : Char) : Bool :=
  c = '\t' || c = '\n' || c = '\x0b' || c = '\x0c' || c = '\r' || c = ' ' ||
  c.toNat = 0x85 || c.toNat = 0xA0 || c.toNat = 0x1680 ||
  (0x2000 ≤ c.toNat && c.toNat ≤ 0x200A) ||
  c.toNat = 0x2028 || c.toNat = 0x2029 || c.toNat = 0x202F ||
  c.toNat = 0x205F || c.toNat = 0x3000

/-- Splitting a character list at every newline; the empty list gives one
empty line, as `strings.Split("", sep)` does. -/
def splitOnNewline : List Char → List (List Char)
  | [] => [[]]
  | c :: t =>
    if c = '\n' then [] :: splitOnNewline t
    else
      match splitOnNewline t with
      | [] => [[c]]
      | l :: ls => (c :: l) :: ls

/-- The call `strings.Split(s, "\n")`. -/
def stringsSplitLines (s : String) : List String :=
  (splitOnNewline s.data).map String.mk

/-- The loop of `strings.Fields`; `cur` is the field being read, reversed. -/
def fieldsLoop : List Char → List Char → List (List Char)
  | [], cur => if cur.isEmpty then [] else [cur.reverse]
  | c :: t, cur =>
    if isSpace c then
      if cur.isEmpty then fieldsLoop t [] else cur.reverse :: fieldsLoop t []
    else fieldsLoop t (c :: cur)

/-- The function `strings.Fields`: the maximal runs of non-space characters. -/
def stringsFields (s : String) : List String :=
  (fieldsLoop s.data []).map String.mk

/-- The function `strings.TrimSpace`. -/
def stringsTrimSpace (s : String) : String :=
  String.mk ((s.data.dropWhile isSpace).reverse.dropWhile isSpace).reverse

/-! ## `fmt.Sscanf` and `fmt.Sprintf` for integers -/

/-- The constant `decimalDigits` of `fmt/scan.go`. -/
def decimalDigits : List Char := "0123456789".data

/-- The constant `hexadecimalDigits` of `fmt/scan.go`. -/
def hexadecimalDigits : List Char := "0123456789aAbBcCdDeEfF".data

/-- The constant `hugeWid` of `fmt/scan.go`: the width when the verb has none. -/
def hugeWid : Nat := 2 ^ 30

/-- The method `SkipSpace` of the scanner as `Sscanf` configures it (a newline
is not a space): `none` is its "unexpected newline" error. -/
def skipSpace : List Char → Option (List Char)
  | [] => some []
  | c :: t =>
    if c = '\n' then none
    else if isSpace c then skipSpace t
    else some (c :: t)

/-- The loop `for s.accept(digits)` under a width limit: the accepted token
and the input left. -/
def acceptDigits (digits : List Char) : List Char → Nat → List Char × List Char
  | [], _ => ([], [])
  | c :: t, wid =>
    if wid = 0 then ([], c :: t)
    else if digits.contains c then
      ((acceptDigits digits t (wid - 1)).1.cons c, (acceptDigits digits t (wid - 1)).2)
    else ([], c :: t)

/-- Value of one digit as `strconv.ParseUint` reads it. -/
def digitVal (c : Char) : Nat :=
  if '0' ≤ c ∧ c ≤ '9' then c.toNat - '0'.toNat
  else if 'a' ≤ c ∧ c ≤ 'z' then c.toNat - 'a'.toNat + 10
  else if 'A' ≤ c ∧ c ≤ 'Z' then c.toNat - 'A'.toNat + 10
  else 0

/-- The digits of a token read in the given base, most significant first. -/
def parseUint (base : Nat) (tok : List Char) : Nat :=
  tok.foldl (fun acc c => acc * base + digitVal c) 0

/-- Scanning of one integer verb (`%d`, `%x`) with width `maxWid` by
`doScanf` and `scanInt` of `fmt/scan.go`: skip spaces, accept one optional
sign, accept digits up to the width, convert with `strconv.ParseInt(tok, base,
64)`. The result is the value and the input left; `none` is any scan error
(unexpected newline, end of input, no digit, value out of the 64-bit range). -/
def scanInt (base : Nat) (digits : List Char) (maxWid : Nat) (input : List Char) :
    Option (Int × List Char) :=
  match skipSpace input with
  | none => none
  | some [] => none
  | some (c :: t) =>
    let signed : Bool := decide (0 < maxWid) && (c = '+' || c = '-')
    let neg : Bool := signed && c = '-'
    let body : List Char := if signed then t else c :: t
    let wid : Nat := if signed then maxWid - 1 else maxWid
    let tok := (acceptDigits digits body wid).1
    let rest := (acceptDigits digits body wid).2
    if tok.isEmpty then none
    else
      let un := parseUint base tok
      if neg then
        if un > 2 ^ 63 then none else some (-(un : Int), rest)
      else
        if un ≥ 2 ^ 63 then none else some ((un : Int), rest)

/-- The call `fmt.Sscanf(str, "%d", &v)` with its error discarded: the new
value of `v`, which keeps its old value when the scan fails. -/
def sscanfD (str : String) (v : Int) : Int :=
  match scanInt 10 decimalDigits hugeWid str.data with
  | none => v
  | some (n, _) => n

/-- The call `fmt.Sscanf(gateway, "%02x%02x%02x%02x", &d, &c, &b, &a)` with
its error discarded, all four variables starting at 0: the values of
`(d, c, b, a)` afterwards. The scan stops at the first verb that fails. -/
def sscanfGateway (gateway : String) : Int × Int × Int × Int :=
  match scanInt 16 hexadecimalDigits 2 gateway.data with
  | none => (0, 0, 0, 0)
  | some (d, r1) =>
    match scanInt 16 hexadecimalDigits 2 r1 with
    | none => (d, 0, 0, 0)
    | some (c, r2) =>
      match scanInt 16 hexadecimalDigits 2 r2 with
      | none => (d, c, 0, 0)
      | some (b, r3) =>
        match scanInt 16 hexadecimalDigits 2 r3 with
        | none => (d, c, b, 0)
        | some (a, _) => (d, c, b, a)

/-- The verb `%d` of `fmt.Sprintf` on an integer. -/
def sprintD (n : Int) : String :=
  match n with
  | Int.ofNat m => Nat.repr m
  | Int.negSucc m => "-" ++ Nat.repr (m + 1)

/-- The call `fmt.Sprintf("%d.%d.%d.%d", a, b, c, d)`. -/
def dottedQuad (a b c d : Int) : String :=
  sprintD a ++ "." ++ sprintD b ++ "." ++ sprintD c ++ "." ++ sprintD d

/-! ## network.go: `getDefaultGateway`, `getDNSServers` -/

/-- The test `len(fields) >= 3 && fields[1] == "00000000"` of
`getDefaultGateway`. -/
def isDefaultRoute (fields : List String) : Bool :=
  decide (fields.length ≥ 3) && fields[1]? == some "00000000"

/-- The loop of `getDefaultGateway` over the lines of the route table. -/
def getDefaultGatewayLoop : List String → String
  | [] => "N/A"
  | line :: rest =>
    let fields := stringsFields line
    if isDefaultRoute fields then
      let gateway := fields[2]?.getD ""
      match sscanfGateway gateway with
      | (d, c, b, a) => dottedQuad a b c d
    else getDefaultGatewayLoop rest

/-- The function `getDefaultGateway` of `network.go`; `route` is the content
of `/proc/net/route`, `none` when it cannot be read. -/
def getDefaultGateway (route : Option String) : String :=
  match route with
  | none => "N/A"
  | some data => getDefaultGatewayLoop (stringsSplitLines data)

/-- The loop of `getDNSServers` over the lines of the resolver config. -/
def getDNSServersLoop : List String → List String → List String
  | [], dnsServers => dnsServers
  | line :: rest, dnsServers =>
    if hasPrefix line "nameserver" then
      let fields := stringsFields line
      if fields.length ≥ 2 then
        getDNSServersLoop rest (dnsServers ++ [fields[1]?.getD ""])
      else getDNSServersLoop rest dnsServers
    else getDNSServersLoop rest dnsServers

/-- The function `getDNSServers` of `network.go`; `resolv` is the content of
`/etc/resolv.conf`, `none` when it cannot be read. -/
def getDNSServers (resolv : Option String) : List String :=
  match resolv with
  | none => ["N/A"]
  | some data =>
    let dnsServers := getDNSServersLoop (stringsSplitLines data) []
    if dnsServers.length = 0 then ["N/A"] else dnsServers

/-- The two-digit hexadecimal rendering of a byte, in upper or lower case. -/
def hexByte (upper : Bool) (p : Nat) : List Char :=
  let digits : List Char := if upper then "0123456789ABCDEF".data else "0123456789abcdef".data
  [digits.getD (p / 16) '0', digits.getD (p % 16) '0']

/-- A route table with a header line and a default route through
192.168.128.2. -/
def sampleRoute : String :=
  "Iface\tDestination\tGateway \tFlags\tRefCnt\tUse\tMetric\tMask\t\tMTU\tWindow\tIRTT\n" ++
  "eth0\t00000000\t0280A8C0\t0003\t0\t0\t100\t00000000\t0\t0\t0\n" ++
  "eth0\t0080A8C0\t00000000\t0001\t0\t0\t100\t00FFFFFF\t0\t0\t0\n"

/-- A resolver config with two nameserver lines and unrelated lines. -/
def sampleResolv : String :=
  "# generated\nnameserver 192.168.128.2\nsearch lan\nnameserver 1.1.1.1\n"

/-- The DNS list in the words of the specification: the second
whitespace-separated field of every line that starts with "nameserver", in
file order. -/
def nameserverFields (text : String) : List String :=
  (stringsSplitLines text).filterMap
    (fun line => if hasPrefix line "nameserver" then (stringsFields line)[1]? else none)

/-! ## network.go: `getExternalIP`, `getCountry`; sysinfo.go: `UpdateExternalNetworkInfo` -/

/-- What the probe sees of an HTTP response: the status code and the result of
`io.ReadAll(resp.Body)`, `none` when reading the body fails. -/
structure HttpResponse where
  StatusCode : Nat
  Body : Option String
  deriving DecidableEq, Repr

/-- The anonymous struct `result` that `getCountry` decodes the body into. -/
structure GeoResult where
  Country : String
  Status : String
  deriving DecidableEq, Repr

/-- The constant `http.StatusOK`. -/
def statusOK : Nat := 200

/-- The function `getExternalIP` of `network.go`. `get` is `client.Get`, with
`none` for a transport error (a timeout included). The second component lists
the URLs requested. -/
def getExternalIP (get : String → Option HttpResponse) : String × List String :=
  let url := "http://api.ipify.org"
  match get url with
  | none => ("N/A", [url])
  | some resp =>
    if resp.StatusCode = statusOK then
      match resp.Body with
      | none => ("N/A", [url])
      | some body =>
        let ip := stringsTrimSpace body
        if ip ≠ "" then (ip, [url]) else ("N/A", [url])
    else ("N/A", [url])

/-- The function `getCountry` of `network.go`. `get` is `client.Get`, and
`unmarshal` is `json.Unmarshal` into a zero `result` struct, with `none` for
its error. The second component lists the URLs requested. -/
def getCountry (get : String → Option HttpResponse) (unmarshal : String → Option GeoResult)
    (externalIP : String) : String × List String :=
  if externalIP = "N/A" ∨ externalIP = "" then ("N/A", [])
  else
    let url := "http://ip-api.com/json/" ++ externalIP ++ "?fields=status,country"
    match get url with
    | none => ("N/A", [url])
    | some resp =>
      if resp.StatusCode ≠ statusOK then ("N/A", [url])
      else
        match resp.Body with
        | none => ("N/A", [url])
        | some body =>
          match unmarshal body with
          | none => ("N/A", [url])
          | some result =>
            if result.Status = "success" ∧ result.Country ≠ "" then (result.Country, [url])
            else ("N/A", [url])

/-- State after the task of `UpdateExternalNetworkInfo` has run: the snapshot,
the URLs requested and the number of times the callback was invoked. -/
structure RefinementOutcome where
  info : Info
  requests : List String
  callbackCalls : Nat

/-- The method `UpdateExternalNetworkInfo` of `sysinfo.go`, run to the
completion of its task: the two lookups, the two assignments to
`i.Networks[0]`, then the callback when one is supplied (`hasCallback`). -/
def UpdateExternalNetworkInfo (get : String → Option HttpResponse)
    (unmarshal : String → Option GeoResult) (hasCallback : Bool) (i : Info) :
    RefinementOutcome :=
  if i.Networks.length = 0 then { info := i, requests := [], callbackCalls := 0 }
  else
    let externalIP := getExternalIP get
    let country := getCountry get unmarshal externalIP.1
    let i1 : Info :=
      { i with Networks := i.Networks.modifyHead (fun n => { n with ExternalIP := externalIP.1 }) }
    let i2 : Info :=
      { i1 with Networks := i1.Networks.modifyHead (fun n => { n with Country := country.1 }) }
    { info := i2, requests := externalIP.2 ++ country.2,
      callbackCalls := if hasCallback then 1 else 0 }

/-- The lookup succeeded with decoded result `r`, in the words of the
specification: the transport succeeded, the status is 200, the body parses,
its status field is "success" and its country field is non-empty. -/
def successfulLookup (get : String → Option HttpResponse)
    (unmarshal : String → Option GeoResult) (url : String) (r : GeoResult) : Prop :=
  ∃ resp body, get url = some resp ∧ resp.StatusCode = 200 ∧ resp.Body = some body ∧
    unmarshal body = some r ∧ r.Status = "success" ∧ r.Country ≠ ""

/-- The URL `getCountry` requests for an external IP. -/
def geoURL (externalIP : String) : String :=
  "http://ip-api.com/json/" ++ externalIP ++ "?fields=status,country"

/-- A stub HTTP client: the public-IP source answers "203.0.113.7" and the
geolocation source answers the given body for every IP. -/
def stubGet (geoBody : String) (url : String) : Option HttpResponse :=
  if url = "http://api.ipify.org" then some { StatusCode := 200, Body := some "203.0.113.7\n" }
  else if hasPrefix url "http://ip-api.com/json/" then
    some { StatusCode := 200, Body := some geoBody }
  else none

/-- A stub decoder that knows the three bodies used below; every other body is
malformed. -/
def stubUnmarshal (body : String) : Option GeoResult :=
  if body = "\x7b\"status\":\"success\",\"country\":\"Example\"\x7d" then
    some { Country := "Example", Status := "success" }
  else if body = "\x7b\"status\":\"success\",\"country\":\"Testland\"\x7d" then
    some { Country := "Testland", Status := "success" }
  else if body = "\x7b\"status\":\"fail\"\x7d" then
    some { Country := "", Status := "fail" }
  else none

/-- A snapshot with one network entry whose external IP and country are the
placeholders. -/
def sampleInfo : Info :=
  { Info.zero with
    Networks := [{ ConnectionType := "Ethernet", Country := "searching...",
                   DNS := ["192.168.128.2"], ESSID := "", ExternalIP := "searching...",
                   Gateway := "192.168.128.2", Interface := "eth0",
                   IPAddress := "192.168.128.17", MACAddress := "00:11:22:33:44:55" }] }

/-! ## sysinfo.go: `collectOSInfo` -/

/-- Result of `host.Info` (gopsutil `host.InfoStat`), reduced to the fields
the probes read. -/
structure InfoStat where
  Uptime : Nat
  Platform : String
  PlatformVersion : String
  KernelVersion : String
  deriving DecidableEq, Repr

/-- The method `collectOSInfo` of `sysinfo.go`; `goos` is `runtime.GOOS` and
`hostInfo` the result of `host.Info`, `none` for an error. -/
def collectOSInfo (goos : String) (hostInfo : Option InfoStat) (i : Info) : Info :=
  let osType := goos
  match hostInfo with
  | some hostInfo =>
    if osType = "darwin" then
      { i with OSType := "macOS", Distribution := hostInfo.PlatformVersion,
               OSVersion := hostInfo.KernelVersion }
    else
      { i with OSType := "Linux",
               Distribution := hostInfo.Platform ++ " " ++ hostInfo.PlatformVersion,
               OSVersion := hostInfo.KernelVersion }
  | none =>
    { i with OSType := osType, OSVersion := "Unknown", Distribution := "Unknown" }

/-! ## battery.go -/

/-- The files the battery probe touches: `stat` tells whether `os.Stat`
succeeds on a path, `readFile` is `os.ReadFile`, `none` for an error. -/
structure FileSystem where
  stat : String → Bool
  readFile : String → Option String

/-- The function `readBatteryFromSysLinux` of `battery.go`. -/
def readBatteryFromSysLinux (fs : FileSystem) (i : Info) (basePath : String) : Info :=
  let i1 : Info :=
    match fs.readFile (basePath ++ "/capacity") with
    | some data => { i with BatteryPercent := sscanfD data i.BatteryPercent }
    | none => i
  let i2 : Info :=
    match fs.readFile (basePath ++ "/status") with
    | some data => { i1 with BatteryStatus := stringsTrimSpace data }
    | none => i1
  match fs.readFile (basePath ++ "/temp") with
  | some data =>
    let temp := sscanfD data 0
    { i2 with BatteryTemp := Float.ofInt temp / 10.0 }
  | none => i2

/-- The first loop of `readBatteryLinux`: the first battery whose base path
exists is read, then the loop breaks. -/
def readBatteryLoop (fs : FileSystem) : List String → Info → Info
  | [], i => i
  | bat :: rest, i =>
    let basePath := "/sys/class/power_supply/" ++ bat
    if fs.stat basePath then readBatteryFromSysLinux fs i basePath
    else readBatteryLoop fs rest i

/-- The second loop of `readBatteryLinux`: the first adapter whose `online`
file can be read decides `AdapterOnline`, then the loop breaks. -/
def readAdapterLoop (fs : FileSystem) : List String → Info → Info
  | [], i => i
  | adapter :: rest, i =>
    let adapterPath := "/sys/class/power_supply/" ++ adapter ++ "/online"
    match fs.readFile adapterPath with
    | some data =>
      let online := sscanfD data 0
      { i with AdapterOnline := decide (online = 1) }
    | none => readAdapterLoop fs rest i

/-- The list `batteries` of `readBatteryLinux`. -/
def batteries : List String := ["BAT0", "BAT1"]

/-- The list `adapters` of `readBatteryLinux`. -/
def adapters : List String := ["AC", "AC0", "ADP0", "ADP1"]

/-- The function `readBatteryLinux` of `battery.go`. -/
def readBatteryLinux (fs : FileSystem) (i : Info) : Info :=
  readAdapterLoop fs adapters (readBatteryLoop fs batteries i)

/-- The function `readBatteryMacOS` of `battery.go`. -/
def readBatteryMacOS (i : Info) : Info :=
  { i with BatteryPercent := 0, BatteryStatus := "N/A", BatteryTemp := 0.0,
           AdapterOnline := false }

/-- The method `collectBatteryInfo` of `battery.go`; `goos` is `runtime.GOOS`. -/
def collectBatteryInfo (goos : String) (fs : FileSystem) (i : Info) : Info :=
  let i0 : Info :=
    { i with BatteryPercent := 0, BatteryStatus := "N/A", BatteryTemp := 0.0,
             AdapterOnline := false }
  if goos = "darwin" then readBatteryMacOS i0 else readBatteryLinux fs i0

/-- The content of the `online` file of the first adapter, in the order AC,
AC0, ADP0, ADP1, whose file can be read. -/
def firstReadableAdapter (fs : FileSystem) : Option String :=
  adapters.findSome? (fun a => fs.readFile ("/sys/class/power_supply/" ++ a ++ "/online"))

/-- A file system built from a list of (path, content) pairs: a path exists
when it is a listed file or a directory above one. -/
def fsOfFiles (files : List (String × String)) : FileSystem :=
  { stat := fun p => files.any (fun f => f.1 = p || hasPrefix f.1 (p ++ "/")),
    readFile := fun p => (files.find? (fun f => f.1 = p)).map (fun f => f.2) }

/-- A laptop with battery BAT1 (no temperature file) and two adapters, the
first offline and the second online. -/
def sampleFiles : List (String × String) :=
  [ ("/sys/class/power_supply/BAT1/capacity", "85\n"),
    ("/sys/class/power_supply/BAT1/status", "Discharging\n"),
    ("/sys/class/power_supply/AC/online", "0\n"),
    ("/sys/class/power_supply/AC0/online", "1\n") ]

/-! ## network.go: `getActiveInterface`, `getWifiESSID`, `collectNetworkInfo` -/

/-- One address of an interface (gopsutil `net.InterfaceAddr`). -/
structure InterfaceAddr where
  Addr : String
  deriving DecidableEq, Repr

/-- One entry of `net.Interfaces` (gopsutil `net.InterfaceStat`), reduced to
the fields the probe reads. -/
structure InterfaceStat where
  Name : String
  HardwareAddr : String
  Addrs : List InterfaceAddr
  deriving DecidableEq, Repr

/-- What the network probe reads from the system: the content of
`/proc/net/route`, of `/etc/resolv.conf` and of `/proc/net/wireless` (`none`
when the file cannot be read), and `exec`, the standard output of a command
given by its name and arguments (`none` when `cmd.Output` returns an error). -/
structure NetEnv where
  route : Option String
  resolv : Option String
  wireless : Option String
  exec : List String → Option String

/-- The loop of `getActiveInterface` over the lines of the route table. -/
def getActiveInterfaceLoop : List String → String
  | [] => ""
  | line :: rest =>
    let fields := stringsFields line
    if fields.length ≥ 2 ∧ fields[1]? = some "00000000" then fields[0]?.getD ""
    else getActiveInterfaceLoop rest

/-- The function `getActiveInterface` of `network.go`. -/
def getActiveInterface (route : Option String) : String :=
  match route with
  | none => ""
  | some data => getActiveInterfaceLoop (stringsSplitLines data)

/-- The text before the first occurrence of `sep`, or all of it. -/
def beforeFirst (sep : List Char) : List Char → List Char
  | [] => []
  | c :: t => if sep.isPrefixOf (c :: t) then [] else c :: beforeFirst sep t

/-- The text after the first occurrence of `sep`, `none` without occurrence. -/
def afterFirst (sep : List Char) : List Char → Option (List Char)
  | [] => none
  | c :: t => if sep.isPrefixOf (c :: t) then some ((c :: t).drop sep.length) else afterFirst sep t

/-- The loop over the output of `iw dev <iface> link`: at the first line that
contains "SSID:", `strings.Split(line, "SSID:")` has more than one part and the
trimmed second part is returned; `none` when the loop ends. -/
def iwLinkLoop : List String → Option String
  | [] => none
  | line :: rest =>
    if stringsContains line "SSID:" then
      match afterFirst "SSID:".data line.data with
      | some tail => some (stringsTrimSpace (String.mk (beforeFirst "SSID:".data tail)))
      | none => iwLinkLoop rest
    else iwLinkLoop rest

/-- The loop over `/proc/net/wireless`: is there a line containing `iface`? -/
def wirelessLoop (iface : String) : List String → Bool
  | [] => false
  | line :: rest => if stringsContains line iface then true else wirelessLoop iface rest

/-- The function `getWifiESSID` of `network.go`. -/
def getWifiESSID (env : NetEnv) (iface : String) : String :=
  let step3 : String :=
    match env.wireless with
    | some data => if wirelessLoop iface (stringsSplitLines data) then "Connected" else "N/A"
    | none => "N/A"
  let step2 : String :=
    match env.exec ["iw", "dev", iface, "link"] with
    | some output =>
      match iwLinkLoop (stringsSplitLines output) with
      | some ssid => ssid
      | none => step3
    | none => step3
  match env.exec ["iwgetid", "-r", iface] with
  | some output =>
    let ssid := stringsTrimSpace output
    if ssid ≠ "" then ssid else step2
  | none => step2

/-- The first loop over `iface.Addrs` in `collectNetworkInfo`: `hasIPv4`. -/
def hasIPv4Loop : List InterfaceAddr → Bool
  | [] => false
  | addr :: rest => if stringsContains addr.Addr "." then true else hasIPv4Loop rest

/-- The second loop over `iface.Addrs` in `collectNetworkInfo`: the first
address containing "." becomes `IPAddress`. -/
def firstIPv4Loop (netInfo : NetworkInfo) : List InterfaceAddr → NetworkInfo
  | [] => netInfo
  | addr :: rest =>
    if stringsContains addr.Addr "." then { netInfo with IPAddress := addr.Addr }
    else firstIPv4Loop netInfo rest

/-- The entry `collectNetworkInfo` builds for an interface it describes. -/
def buildNetInfo (env : NetEnv) (defaultGateway : String) (iface : InterfaceStat) :
    NetworkInfo :=
  let netInfo : NetworkInfo :=
    { ConnectionType := "", Country := "", DNS := [], ESSID := "", ExternalIP := "",
      Gateway := "", Interface := iface.Name, IPAddress := "",
      MACAddress := iface.HardwareAddr }
  let netInfo := firstIPv4Loop netInfo iface.Addrs
  let netInfo : NetworkInfo :=
    if hasPrefix iface.Name "wl" || hasPrefix iface.Name "wlan" then
      { netInfo with ConnectionType := "WiFi", ESSID := getWifiESSID env iface.Name }
    else if hasPrefix iface.Name "en" || hasPrefix iface.Name "eth" then
      { netInfo with ConnectionType := "Ethernet" }
    else
      { netInfo with ConnectionType := "Other" }
  { netInfo with Gateway := defaultGateway, DNS := getDNSServers env.resolv,
                 ExternalIP := "searching...", Country := "searching..." }

/-- The loop of `collectNetworkInfo` over the interfaces: each `continue`
goes on with the rest, the `break` after the append ends the loop. -/
def collectNetworkLoop (env : NetEnv) (defaultGateway activeInterface : String) :
    List InterfaceStat → List NetworkInfo → List NetworkInfo
  | [], networks => networks
  | iface :: rest, networks =>
    if hasPrefix iface.Name "lo" || decide (iface.Addrs.length = 0) then
      collectNetworkLoop env defaultGateway activeInterface rest networks
    else if activeInterface ≠ "" ∧ iface.Name ≠ activeInterface then
      collectNetworkLoop env defaultGateway activeInterface rest networks
    else if !hasIPv4Loop iface.Addrs then
      collectNetworkLoop env defaultGateway activeInterface rest networks
    else networks ++ [buildNetInfo env defaultGateway iface]

/-- The method `collectNetworkInfo` of `network.go`; `interfaces` is the
result of `net.Interfaces`, `none` for an error. -/
def collectNetworkInfo (interfaces : Option (List InterfaceStat)) (env : NetEnv) (i : Info) :
    Info :=
  match interfaces with
  | none => i
  | some ifs =>
    let defaultGateway := getDefaultGateway env.route
    let activeInterface := getActiveInterface env.route
    { i with Networks := collectNetworkLoop env defaultGateway activeInterface ifs i.Networks }

/-- The selection rule in the words of the specification: the name does not
start with "lo", some address contains ".", and the name equals the
active-interface name when that name is non-empty. -/
def eligibleSpec (activeInterface : String) (iface : InterfaceStat) : Bool :=
  !hasPrefix iface.Name "lo" &&
  iface.Addrs.any (fun a => stringsContains a.Addr ".") &&
  (decide (activeInterface = "") || decide (iface.Name = activeInterface))

/-- The classification in the words of the specification. -/
def connectionTypeSpec (name : String) : String :=
  if hasPrefix name "wl" ∨ hasPrefix name "wlan" then "WiFi"
  else if hasPrefix name "en" ∨ hasPrefix name "eth" then "Ethernet"
  else "Other"

/-- Interfaces of a laptop: loopback, a wired interface without IPv4 address,
the wireless interface and a bridge. -/
def sampleInterfaces : List InterfaceStat :=
  [ { Name := "lo", HardwareAddr := "", Addrs := [{ Addr := "127.0.0.1/8" }] },
    { Name := "enp3s0", HardwareAddr := "00:11:22:33:44:55", Addrs := [{ Addr := "fe80::1/64" }] },
    { Name := "wlp2s0", HardwareAddr := "66:77:88:99:aa:bb",
      Addrs := [{ Addr := "fe80::2/64" }, { Addr := "192.168.128.17/24" }] },
    { Name := "docker0", HardwareAddr := "02:42:00:00:00:01",
      Addrs := [{ Addr := "172.17.0.1/16" }] } ]

/-- An environment for `sampleInterfaces`: the default route goes through
"wlp2s0", and `iwgetid` reports the network "home". -/
def sampleNetEnv : NetEnv :=
  { route := some "Iface\tDestination\tGateway\nwlp2s0\t00000000\t0280A8C0\t0003\n",
    resolv := some sampleResolv,
    wireless := none,
    exec := fun cmd => if cmd = ["iwgetid", "-r", "wlp2s0"] then some "home\n" else none }

/-! ## `float64` arithmetic -/

/-- Rounding of a rational to the nearest integer, ties to the even one. -/
def roundHalfEven (x : ℚ) : ℤ :=
  if x - ⌊x⌋ < 1 / 2 then ⌊x⌋
  else if 1 / 2 < x - ⌊x⌋ then ⌊x⌋ + 1
  else if ⌊x⌋ % 2 = 0 then ⌊x⌋
  else ⌊x⌋ + 1

/-- The unit in the last place of a non-zero rational as a `float64`: with
`2 ^ e ≤ |x| < 2 ^ (e + 1)`, the 53-bit significand makes it `2 ^ (e - 52)`. -/
def ulp (x : ℚ) : ℚ :=
  (2 : ℚ) ^ (Int.log 2 |x| - 52)

/-- Rounding of a rational to `float64` (IEEE 754 binary64, round to nearest,
ties to even); a `float64` value is modelled by the rational it denotes.
Exponent overflow and subnormal numbers are not modelled. -/
def roundFloat64 (x : ℚ) : ℚ :=
  if x = 0 then 0 else roundHalfEven (x / ulp x) * ulp x

/-- Conversion of an integer to `float64`. -/
def float64OfInt (n : Int) : ℚ :=
  roundFloat64 (n : ℚ)

/-- Addition of two `float64` values. -/
def float64Add (a b : ℚ) : ℚ :=
  roundFloat64 (a + b)

/-- Division of two `float64` values. -/
def float64Div (a b : ℚ) : ℚ :=
  roundFloat64 (a / b)

/-- Conversion `int(x)` of a `float64` to an integer: the fraction is
discarded (truncation towards zero). -/
def intOfFloat64 (x : ℚ) : Int :=
  if 0 ≤ x then ⌊x⌋ else ⌈x⌉

/-! ## Package `time`; sysinfo.go: `collectDateTimeInfo` -/

/-- Wrap-around of an integer into the range of `int64`. -/
def wrapInt64 (n : Int) : Int :=
  (n + 2 ^ 63) % 2 ^ 64 - 2 ^ 63

/-- The constant `time.Second`, in nanoseconds. -/
def Second : Int := 1000000000

/-- The constant `time.Minute`. -/
def Minute : Int := 60 * Second

/-- The constant `time.Hour`. -/
def Hour : Int := 60 * Minute

/-- The method `Duration.Hours` of package `time`:
`float64(d / Hour) + float64(d % Hour) / (60 * 60 * 1e9)`. -/
def Hours (d : Int) : ℚ :=
  let hour := Int.tdiv d Hour
  let nsec := Int.tmod d Hour
  float64Add (float64OfInt hour) (float64Div (float64OfInt nsec) (60 * 60 * 1000000000))

/-- The method `Duration.Minutes` of package `time`:
`float64(d / Minute) + float64(d % Minute) / (60 * 1e9)`. -/
def Minutes (d : Int) : ℚ :=
  let min := Int.tdiv d Minute
  let nsec := Int.tmod d Minute
  float64Add (float64OfInt min) (float64Div (float64OfInt nsec) (60 * 1000000000))

/-- What `collectDateTimeInfo` reads from `time.Now()`: the weekday and month
names, the day of the month, the year and the clock as "15:04:05". -/
structure Now where
  Weekday : String
  Day : Int
  Month : String
  Year : Int
  Clock : String
  deriving DecidableEq, Repr

/-- The method `collectDateTimeInfo` of `sysinfo.go`; `hostInfo` is the result
of `host.Info`, `none` for an error. The uptime in seconds is a `uint64`; its
conversion to `time.Duration` and the product with `time.Second` wrap around
in `int64`. -/
def collectDateTimeInfo (now : Now) (hostInfo : Option InfoStat) (i : Info) : Info :=
  let day := now.Day
  let suffix := getDaySuffix day
  let i1 : Info :=
    { i with DateTime := now.Weekday ++ " " ++ sprintD day ++ suffix ++ " " ++ now.Month ++
        " " ++ sprintD now.Year ++ " - " ++ now.Clock }
  match hostInfo with
  | some hostInfo =>
    let uptime := wrapInt64 (wrapInt64 (hostInfo.Uptime : Int) * Second)
    let days := intOfFloat64 (float64Div (Hours uptime) 24)
    let hours := Int.tmod (intOfFloat64 (Hours uptime)) 24
    let minutes := Int.tmod (intOfFloat64 (Minutes uptime)) 60
    { i1 with Uptime := sprintD days ++ "d " ++ sprintD hours ++ "h " ++ sprintD minutes ++ "m" }
  | none => { i1 with Uptime := "Unknown" }

/-! ## Theorems -/

/-- C1 (as stated, refuted): day 111 has `111 mod 100 = 11`, yet
`getDaySuffix 111` is "st" and not "th". -/
theorem getDaySuffix_111 :
    (1 : Int) ≤ 111 ∧ (111 : Int) % 100 = 11 ∧ getDaySuffix 111 = "st" ∧
      getDaySuffix 111 ≠ ordinalSuffixSpec 111 := by
  decide

/-- C1 (amended): for every day `d ≥ 1`, `getDaySuffix d` agrees with the
mod-100 ordinal rule exactly when `d ≤ 110` or `d mod 100` is none of 11, 12,
13; in particular it agrees on every day of a month. -/
theorem getDaySuffix_eq_spec_iff (d : Int) (hd : 1 ≤ d) :
    getDaySuffix d = ordinalSuffixSpec d ↔
      (d ≤ 110 ∨ ¬ (d % 100 = 11 ∨ d % 100 = 12 ∨ d % 100 = 13)) := by
  have ht : Int.tmod d 10 = d % 10 := Int.tmod_eq_emod (by omega) (by omega)
  have e1 : ("st" : String) ≠ "th" := by decide
  have e2 : ("nd" : String) ≠ "th" := by decide
  have e3 : ("rd" : String) ≠ "th" := by decide
  unfold getDaySuffix ordinalSuffixSpec
  simp only [ht]
  split_ifs <;> simp_all <;> omega

/-- Witness for C1: the days 1, 2, 3, 4, 11, 12, 13, 21, 22, 23 and 100 get
the suffix of the mod-100 rule. -/
theorem getDaySuffix_eq_spec_iff_witness :
    (getDaySuffix 23 = ordinalSuffixSpec 23 ↔
      ((23 : Int) ≤ 110 ∨ ¬ ((23 : Int) % 100 = 11 ∨ (23 : Int) % 100 = 12 ∨
        (23 : Int) % 100 = 13))) ∧
    getDaySuffix 1 = "st" ∧ getDaySuffix 2 = "nd" ∧ getDaySuffix 3 = "rd" ∧
    getDaySuffix 4 = "th" ∧ getDaySuffix 11 = "th" ∧ getDaySuffix 12 = "th" ∧
    getDaySuffix 13 = "th" ∧ getDaySuffix 21 = "st" ∧ getDaySuffix 22 = "nd" ∧
    getDaySuffix 23 = "rd" ∧ getDaySuffix 100 = "th" :=
  ⟨getDaySuffix_eq_spec_iff 23 (by decide), by decide⟩

/-! ### Disk probe -/

theorem containsAnyOf_eq_any (fstype : String) (l : List String) :
    containsAnyOf fstype l = l.any (fun v => stringsContains fstype v) := by
  induction l with
  | nil => rfl
  | cons v rest ih => simp only [containsAnyOf, List.any_cons, ih]; cases stringsContains fstype v <;> simp

theorem hasAnyPrefixOf_eq_any (device : String) (l : List String) :
    hasAnyPrefixOf device l = l.any (fun v => hasPrefix device v) := by
  induction l with
  | nil => rfl
  | cons v rest ih => simp only [hasAnyPrefixOf, List.any_cons, ih]; cases hasPrefix device v <;> simp

theorem collectDiskStep_eq (usage : String → Option UsageStat) (disks : List DiskInfo)
    (p : PartitionStat) :
    collectDiskStep usage disks p =
      disks ++ (if survivesSpec usage p then ((usage p.Mountpoint).map (diskEntry p)).toList
        else []) := by
  unfold collectDiskStep survivesSpec isVirtualFilesystem isVirtualDevice
  rw [containsAnyOf_eq_any, hasAnyPrefixOf_eq_any]
  have h1 : (virtualFs.all fun v => !stringsContains p.Fstype v) =
      !(virtualFs.any fun v => stringsContains p.Fstype v) := by
    rw [List.not_any_eq_all_not]
  have h2 : (virtualPrefixes.all fun v => !hasPrefix p.Device v) =
      !(virtualPrefixes.any fun v => hasPrefix p.Device v) := by
    rw [List.not_any_eq_all_not]
  rw [h1, h2]
  cases virtualFs.any fun v => stringsContains p.Fstype v <;>
  cases hasPrefix p.Device "/dev/loop" <;>
  cases stringsContains p.Device "/snap/" <;>
  cases virtualPrefixes.any fun v => hasPrefix p.Device v <;>
  cases hasPrefix p.Mountpoint "/boot" <;>
  cases usage p.Mountpoint <;> simp

theorem foldl_collectDiskStep (usage : String → Option UsageStat) (ps : List PartitionStat)
    (disks : List DiskInfo) :
    ps.foldl (collectDiskStep usage) disks =
      disks ++ (ps.filter (survivesSpec usage)).filterMap
        (fun p => (usage p.Mountpoint).map (diskEntry p)) := by
  induction ps generalizing disks with
  | nil => simp
  | cons p rest ih =>
    rw [List.foldl_cons, ih, collectDiskStep_eq]
    by_cases h : survivesSpec usage p = true
    · have hs : (usage p.Mountpoint).isSome = true := by
        unfold survivesSpec at h
        simp only [Bool.and_eq_true] at h
        exact h.2
      obtain ⟨u, hu⟩ := Option.isSome_iff_exists.mp hs
      simp [h, hu, List.filter_cons]
    · simp [h, List.filter_cons]

/-- C2: starting from an empty `Disks` list, `collectDiskInfo` produces, in
enumeration order, exactly the entries of the partitions that survive the
three exclusion rules and whose usage query succeeds; the two predicates of
the code are the substring and prefix rules of the specification. -/
theorem collectDiskInfo_filter (usage : String → Option UsageStat)
    (ps : List PartitionStat) (i : Info) (h0 : i.Disks = []) :
    (∀ fstype, isVirtualFilesystem fstype = false ↔
        ∀ v ∈ virtualFs, stringsContains fstype v = false) ∧
    (∀ device, isVirtualDevice device = false ↔
        (hasPrefix device "/dev/loop" = false ∧ stringsContains device "/snap/" = false ∧
          ∀ pre ∈ virtualPrefixes, hasPrefix device pre = false)) ∧
    (collectDiskInfo (some ps) usage i).Disks =
      (ps.filter (survivesSpec usage)).filterMap
        (fun p => (usage p.Mountpoint).map (diskEntry p)) ∧
    ((collectDiskInfo (some ps) usage i).Disks.map (fun d => d.MountPoint)) =
      (ps.filter (survivesSpec usage)).map (fun p => p.Mountpoint) := by
  have hfold := foldl_collectDiskStep usage ps []
  refine ⟨?_, ?_, ?_, ?_⟩
  · intro fstype
    unfold isVirtualFilesystem
    rw [containsAnyOf_eq_any]
    simp
  · intro device
    unfold isVirtualDevice
    rw [hasAnyPrefixOf_eq_any]
    cases hasPrefix device "/dev/loop" <;> cases stringsContains device "/snap/" <;> simp
  · simp only [collectDiskInfo, h0, hfold, List.nil_append]
  · simp only [collectDiskInfo, h0, hfold, List.nil_append]
    induction ps with
    | nil => simp
    | cons p rest ih =>
      by_cases h : survivesSpec usage p = true
      · have hs : (usage p.Mountpoint).isSome = true := by
          unfold survivesSpec at h
          simp only [Bool.and_eq_true] at h
          exact h.2
        obtain ⟨u, hu⟩ := Option.isSome_iff_exists.mp hs
        have := ih (foldl_collectDiskStep usage rest [])
        simp [h, hu, List.filter_cons, diskEntry] at this ⊢
        exact this
      · have := ih (foldl_collectDiskStep usage rest [])
        simp [h, List.filter_cons] at this ⊢
        exact this

/-- Witness for C2: on a sample partition table the probe keeps "/" and
"/data", in that order. -/
theorem collectDiskInfo_filter_witness :
    Info.zero.Disks = [] ∧
    ((collectDiskInfo (some samplePartitions) sampleUsage Info.zero).Disks.map
        (fun d => d.MountPoint)) =
      (samplePartitions.filter (survivesSpec sampleUsage)).map (fun p => p.Mountpoint) ∧
    (samplePartitions.filter (survivesSpec sampleUsage)).map (fun p => p.Mountpoint) =
      ["/", "/data"] :=
  ⟨rfl, (collectDiskInfo_filter sampleUsage samplePartitions Info.zero rfl).2.2.2, by decide⟩

/-! ### The scanner -/

theorem acceptDigits_zero (digits l : List Char) : acceptDigits digits l 0 = ([], l) := by
  cases l <;> simp [acceptDigits]

theorem hexadecimalDigits_props :
    ∀ c ∈ hexadecimalDigits, c ≠ '\n' ∧ isSpace c = false ∧ c ≠ '+' ∧ c ≠ '-' ∧
      hexadecimalDigits.contains c = true ∧ digitVal c < 16 := by
  decide

theorem scanInt_hex_pair (c1 c2 : Char) (h1 : c1 ∈ hexadecimalDigits)
    (h2 : c2 ∈ hexadecimalDigits) (rest : List Char) :
    scanInt 16 hexadecimalDigits 2 (c1 :: c2 :: rest) =
      some (((16 * digitVal c1 + digitVal c2 : Nat) : Int), rest) := by
  obtain ⟨a1, a2, a3, a4, a5, a6⟩ := hexadecimalDigits_props c1 h1
  obtain ⟨_, _, _, _, b5, b6⟩ := hexadecimalDigits_props c2 h2
  have hlt : ¬ (digitVal c1 * 16 + digitVal c2 ≥ 2 ^ 63) := by omega
  have hacc : acceptDigits hexadecimalDigits (c1 :: c2 :: rest) 2 = ([c1, c2], rest) := by
    simp [acceptDigits, h1, h2, acceptDigits_zero]
  simp [scanInt, skipSpace, a1, a2, a3, a4, hacc, parseUint]
  omega

theorem hexByte_spec (upper : Bool) (p : Nat) (hp : p < 256) :
    ∃ c1 c2, hexByte upper p = [c1, c2] ∧ c1 ∈ hexadecimalDigits ∧ c2 ∈ hexadecimalDigits ∧
      16 * digitVal c1 + digitVal c2 = p := by
  have key : ∀ (u : Bool) (n : Fin 16),
      ((if u then "0123456789ABCDEF".data else "0123456789abcdef".data).getD n.val '0')
          ∈ hexadecimalDigits ∧
      digitVal ((if u then "0123456789ABCDEF".data else "0123456789abcdef".data).getD n.val '0')
          = n.val := by
    decide
  have k1 := key upper ⟨p / 16, by omega⟩
  have k2 := key upper ⟨p % 16, by omega⟩
  refine ⟨_, _, rfl, k1.1, k2.1, ?_⟩
  rw [k1.2, k2.2]
  simp only
  omega

theorem scanInt_hexByte (upper : Bool) (p : Nat) (hp : p < 256) (rest : List Char) :
    scanInt 16 hexadecimalDigits 2 (hexByte upper p ++ rest) = some ((p : Int), rest) := by
  obtain ⟨c1, c2, he, h1, h2, hv⟩ := hexByte_spec upper p hp
  rw [he]
  simp only [List.cons_append, List.nil_append]
  rw [scanInt_hex_pair c1 c2 h1 h2 rest, hv]

theorem sscanfGateway_hexBytes (u1 u2 u3 u4 : Bool) (p1 p2 p3 p4 : Nat)
    (h1 : p1 < 256) (h2 : p2 < 256) (h3 : p3 < 256) (h4 : p4 < 256) :
    sscanfGateway (String.mk (hexByte u1 p1 ++ hexByte u2 p2 ++ hexByte u3 p3 ++ hexByte u4 p4))
      = ((p1 : Int), (p2 : Int), (p3 : Int), (p4 : Int)) := by
  unfold sscanfGateway
  simp only [List.append_assoc]
  rw [scanInt_hexByte u1 p1 h1]
  simp only
  rw [scanInt_hexByte u2 p2 h2]
  simp only
  rw [scanInt_hexByte u3 p3 h3]
  simp only
  have := scanInt_hexByte u4 p4 h4 []
  rw [List.append_nil] at this
  rw [this]

theorem getDefaultGatewayLoop_find (lines : List String) (line : String)
    (h : lines.find? (fun l => isDefaultRoute (stringsFields l)) = some line) :
    getDefaultGatewayLoop lines =
      dottedQuad (sscanfGateway ((stringsFields line)[2]?.getD "")).2.2.2
        (sscanfGateway ((stringsFields line)[2]?.getD "")).2.2.1
        (sscanfGateway ((stringsFields line)[2]?.getD "")).2.1
        (sscanfGateway ((stringsFields line)[2]?.getD "")).1 := by
  induction lines with
  | nil => simp at h
  | cons l rest ih =>
    rw [List.find?_cons] at h
    unfold getDefaultGatewayLoop
    by_cases hl : isDefaultRoute (stringsFields l) = true
    · simp only [hl] at h
      cases h
      simp only [hl, if_true]
    · simp only [hl] at h
      simp only [hl]
      exact ih h

/-- C3: when the first default-route line (at least three fields, the second
"00000000") has as third field the two-digit hexadecimal renderings of the
bytes `p1 p2 p3 p4`, `getDefaultGateway` returns the dotted-decimal string
`p4.p3.p2.p1`. -/
theorem getDefaultGateway_reverses_bytes (text line : String) (u1 u2 u3 u4 : Bool)
    (p1 p2 p3 p4 : Nat) (h1 : p1 < 256) (h2 : p2 < 256) (h3 : p3 < 256) (h4 : p4 < 256)
    (hline : (stringsSplitLines text).find? (fun l => isDefaultRoute (stringsFields l))
      = some line)
    (hgw : (stringsFields line)[2]? =
      some (String.mk (hexByte u1 p1 ++ hexByte u2 p2 ++ hexByte u3 p3 ++ hexByte u4 p4))) :
    getDefaultGateway (some text) =
      Nat.repr p4 ++ "." ++ Nat.repr p3 ++ "." ++ Nat.repr p2 ++ "." ++ Nat.repr p1 := by
  unfold getDefaultGateway
  simp only
  rw [getDefaultGatewayLoop_find _ line hline, hgw, Option.getD_some,
    sscanfGateway_hexBytes u1 u2 u3 u4 p1 p2 p3 p4 h1 h2 h3 h4]
  rfl

/-- Witness for C3: the line "eth0\t00000000\t0280A8C0\t..." decodes to
"192.168.128.2". -/
theorem getDefaultGateway_reverses_bytes_witness :
    getDefaultGateway (some "eth0\t00000000\t0280A8C0\t...") =
        Nat.repr 0xC0 ++ "." ++ Nat.repr 0xA8 ++ "." ++ Nat.repr 0x80 ++ "." ++ Nat.repr 0x02 ∧
    Nat.repr 0xC0 ++ "." ++ Nat.repr 0xA8 ++ "." ++ Nat.repr 0x80 ++ "." ++ Nat.repr 0x02
      = "192.168.128.2" ∧
    getDefaultGateway (some sampleRoute) = "192.168.128.2" :=
  ⟨getDefaultGateway_reverses_bytes "eth0\t00000000\t0280A8C0\t..."
      "eth0\t00000000\t0280A8C0\t..." true true true true 0x02 0x80 0xA8 0xC0
      (by decide) (by decide) (by decide) (by decide) (by decide) (by decide),
    by decide, by decide⟩

/-! ### DNS servers -/

theorem getDNSServersLoop_eq (lines acc : List String) :
    getDNSServersLoop lines acc = acc ++ lines.filterMap
      (fun line => if hasPrefix line "nameserver" then (stringsFields line)[1]? else none) := by
  induction lines generalizing acc with
  | nil => simp [getDNSServersLoop]
  | cons l rest ih =>
    unfold getDNSServersLoop
    by_cases hp : hasPrefix l "nameserver" = true
    · by_cases hlen : (stringsFields l).length ≥ 2
      · have hget : ∃ x, (stringsFields l)[1]? = some x :=
          ⟨(stringsFields l)[1], List.getElem?_eq_getElem (by omega)⟩
        obtain ⟨x, hx⟩ := hget
        simp [hp, hlen, hx, ih, List.filterMap_cons]
      · have hnone : (stringsFields l)[1]? = none := List.getElem?_eq_none (by omega)
        simp [hp, hlen, hnone, ih, List.filterMap_cons]
    · simp [hp, ih, List.filterMap_cons]

/-- C4: `getDNSServers` returns, in file order, the second field of every line
starting with "nameserver" and nothing else; with no such line, or an
unreadable file, it returns exactly ["N/A"]; it never returns the empty list. -/
theorem getDNSServers_spec (text : String) :
    getDNSServers (some text) =
      (if nameserverFields text = [] then ["N/A"] else nameserverFields text) ∧
    ((∀ line ∈ stringsSplitLines text, hasPrefix line "nameserver" = false) →
      getDNSServers (some text) = ["N/A"]) ∧
    getDNSServers none = ["N/A"] ∧
    getDNSServers (some text) ≠ [] ∧ getDNSServers none ≠ [] := by
  have hmain : getDNSServers (some text) =
      (if nameserverFields text = [] then ["N/A"] else nameserverFields text) := by
    unfold getDNSServers nameserverFields
    simp only [getDNSServersLoop_eq, List.nil_append, List.length_eq_zero]
  refine ⟨hmain, ?_, rfl, ?_, by simp [getDNSServers]⟩
  · intro hno
    have hnil : nameserverFields text = [] := by
      unfold nameserverFields
      rw [List.filterMap_eq_nil_iff]
      intro line hline
      simp [hno line hline]
    rw [hmain, hnil]
    rfl
  · rw [hmain]
    split_ifs with h
    · simp
    · exact h

/-- Witness for C4: a config with two nameserver lines among unrelated lines
gives the two addresses in file order; a config without any gives ["N/A"]. -/
theorem getDNSServers_spec_witness :
    getDNSServers (some "search lan\noptions edns0\n") = ["N/A"] ∧
    getDNSServers (some sampleResolv) = ["192.168.128.2", "1.1.1.1"] ∧
    nameserverFields sampleResolv = ["192.168.128.2", "1.1.1.1"] :=
  ⟨(getDNSServers_spec "search lan\noptions edns0\n").2.1 (by decide), by decide, by decide⟩

/-! ### Gateway: soft failure -/

theorem getDefaultGatewayLoop_none (lines : List String)
    (h : ∀ line ∈ lines, isDefaultRoute (stringsFields line) = false) :
    getDefaultGatewayLoop lines = "N/A" := by
  induction lines with
  | nil => rfl
  | cons l rest ih =>
    unfold getDefaultGatewayLoop
    have hl := h l (List.mem_cons_self _ _)
    simp only [hl]
    exact ih (fun line hm => h line (List.mem_cons_of_mem _ hm))

theorem acceptDigits_token (digits : List Char) (l : List Char) (wid : Nat) :
    (acceptDigits digits l wid).1.length ≤ wid ∧
      ∀ c ∈ (acceptDigits digits l wid).1, c ∈ digits := by
  induction l generalizing wid with
  | nil => simp [acceptDigits]
  | cons c t ih =>
    unfold acceptDigits
    by_cases hw : wid = 0
    · simp [hw]
    · by_cases hc : c ∈ digits
      · have := ih (wid - 1)
        have hc2 : digits.contains c = true := by simpa using hc
        simp only [hw, if_false, hc2, if_true, List.length_cons, List.mem_cons, ↓reduceIte]
        refine ⟨by omega, ?_⟩
        rintro x (rfl | hx)
        · exact hc
        · exact this.2 x hx
      · simp [hw, hc]

theorem parseUint_hex_bound (tok : List Char) (h : ∀ c ∈ tok, c ∈ hexadecimalDigits) :
    (tok.length ≤ 1 → parseUint 16 tok ≤ 15) ∧ (tok.length ≤ 2 → parseUint 16 tok ≤ 255) := by
  match tok, h with
  | [], _ => simp [parseUint]
  | [c], h =>
    have := (hexadecimalDigits_props c (h c (by simp))).2.2.2.2.2
    simp [parseUint]
    omega
  | [c1, c2], h =>
    have := (hexadecimalDigits_props c1 (h c1 (by simp))).2.2.2.2.2
    have := (hexadecimalDigits_props c2 (h c2 (by simp))).2.2.2.2.2
    simp [parseUint]
    omega
  | _ :: _ :: _ :: _, _ => simp

theorem scanInt_hex2_bound (input : List Char) (v : Int) (rest : List Char)
    (h : scanInt 16 hexadecimalDigits 2 input = some (v, rest)) : -15 ≤ v ∧ v ≤ 255 := by
  unfold scanInt at h
  split at h
  · exact absurd h (by simp)
  · exact absurd h (by simp)
  · rename_i c t _
    by_cases hs : (c = '+' || c = '-') = true
    · have hsigned : (decide (0 < 2) && (c = '+' || c = '-')) = true := by simp [hs]
      simp only [hsigned, Bool.true_and, if_true, ↓reduceIte] at h
      have htok := acceptDigits_token hexadecimalDigits t (2 - 1)
      have hb := (parseUint_hex_bound _ htok.2).1 htok.1
      split_ifs at h <;> simp only [Option.some.injEq, Prod.mk.injEq] at h <;>
        (obtain ⟨rfl, _⟩ := h; omega)
    · have hsigned : (decide (0 < 2) && (c = '+' || c = '-')) = false := by simp [hs]
      simp only [hsigned, Bool.false_and, Bool.false_eq_true, if_false, ↓reduceIte] at h
      have htok := acceptDigits_token hexadecimalDigits (c :: t) 2
      have hb := (parseUint_hex_bound _ htok.2).2 htok.1
      split_ifs at h
      simp only [Option.some.injEq, Prod.mk.injEq] at h
      obtain ⟨rfl, _⟩ := h
      omega

theorem sscanfGateway_bound (gateway : String) :
    (-15 ≤ (sscanfGateway gateway).1 ∧ (sscanfGateway gateway).1 ≤ 255) ∧
    (-15 ≤ (sscanfGateway gateway).2.1 ∧ (sscanfGateway gateway).2.1 ≤ 255) ∧
    (-15 ≤ (sscanfGateway gateway).2.2.1 ∧ (sscanfGateway gateway).2.2.1 ≤ 255) ∧
    (-15 ≤ (sscanfGateway gateway).2.2.2 ∧ (sscanfGateway gateway).2.2.2 ≤ 255) := by
  unfold sscanfGateway
  split
  · simp
  · rename_i d r1 h1
    have b1 := scanInt_hex2_bound _ _ _ h1
    split
    · simp [b1]
    · rename_i c r2 h2
      have b2 := scanInt_hex2_bound _ _ _ h2
      split
      · simp [b1, b2]
      · rename_i b r3 h3
        have b3 := scanInt_hex2_bound _ _ _ h3
        split
        · simp [b1, b2, b3]
        · rename_i a r4 h4
          have b4 := scanInt_hex2_bound _ _ _ h4
          exact ⟨b1, b2, b3, b4⟩

theorem dottedQuad_ne_NA (a b c d : Int) : dottedQuad a b c d ≠ "N/A" := by
  intro h
  have hmem : '.' ∈ (dottedQuad a b c d).data := by
    simp [dottedQuad, String.data_append]
  rw [h] at hmem
  exact absurd hmem (by decide)

/-- C10 (as stated, refuted): a default-route line whose gateway field is the
non-hex "ZZZZZZZZ" yields "0.0.0.0", a too short field "C0A8" yields
"0.0.168.192", and a signed field yields negative numbers; none is "N/A". -/
theorem getDefaultGateway_malformed :
    getDefaultGateway (some "eth0\t00000000\tZZZZZZZZ\t0003") = "0.0.0.0" ∧
    getDefaultGateway (some "eth0\t00000000\tZZZZZZZZ\t0003") ≠ "N/A" ∧
    getDefaultGateway (some "eth0\t00000000\tC0A8\t0003") = "0.0.168.192" ∧
    getDefaultGateway (some "eth0\t00000000\t-f-f-f-f\t0003") = "-15.-15.-15.-15" := by
  decide

/-- C10 (amended): `getDefaultGateway` returns "N/A" when the route table
cannot be read and when no line has at least three fields with second field
"00000000"; in every other case the result is not "N/A" but the dotted string
of four integers, each between -15 and 255, whatever the gateway field is. -/
theorem getDefaultGateway_soft_fail (text : String) :
    getDefaultGateway none = "N/A" ∧
    ((∀ line ∈ stringsSplitLines text, isDefaultRoute (stringsFields line) = false) →
      getDefaultGateway (some text) = "N/A") ∧
    ((∃ line ∈ stringsSplitLines text, isDefaultRoute (stringsFields line) = true) →
      getDefaultGateway (some text) ≠ "N/A" ∧
      ∃ a b c d : Int, (-15 ≤ a ∧ a ≤ 255) ∧ (-15 ≤ b ∧ b ≤ 255) ∧ (-15 ≤ c ∧ c ≤ 255) ∧
        (-15 ≤ d ∧ d ≤ 255) ∧ getDefaultGateway (some text) = dottedQuad a b c d) := by
  refine ⟨rfl, fun h => getDefaultGatewayLoop_none _ h, ?_⟩
  rintro ⟨line, hmem, hline⟩
  have hsome : ((stringsSplitLines text).find?
      (fun l => isDefaultRoute (stringsFields l))).isSome = true := by
    rw [List.find?_isSome]
    exact ⟨line, hmem, hline⟩
  obtain ⟨l0, hl0⟩ := Option.isSome_iff_exists.mp hsome
  have heq : getDefaultGateway (some text) = _ := getDefaultGatewayLoop_find _ l0 hl0
  have hb := sscanfGateway_bound ((stringsFields l0)[2]?.getD "")
  refine ⟨?_, _, _, _, _, hb.2.2.2, hb.2.2.1, hb.2.1, hb.1, heq⟩
  rw [heq]
  exact dottedQuad_ne_NA _ _ _ _

/-- Witness for C10: a table without default route gives "N/A", the sample
table gives a dotted quad. -/
theorem getDefaultGateway_soft_fail_witness :
    getDefaultGateway (some "Iface\tDestination\tGateway\neth0\t0080A8C0\t00000000\n") = "N/A" ∧
    getDefaultGateway (some sampleRoute) ≠ "N/A" :=
  ⟨(getDefaultGateway_soft_fail "Iface\tDestination\tGateway\neth0\t0080A8C0\t00000000\n").2.1
      (by decide),
   ((getDefaultGateway_soft_fail sampleRoute).2.2
      ⟨"eth0\t00000000\t0280A8C0\t0003\t0\t0\t100\t00000000\t0\t0\t0", by decide, by decide⟩).1⟩

/-! ### Deferred network refinement -/

/-- C5: for a snapshot with at least one network entry, the completed task of
`UpdateExternalNetworkInfo` sets `ExternalIP` and `Country` of the first
entry to the results of the two lookups and alters nothing else: the other
fields of that entry, the other entries, the length of `Networks` and every
other field of the snapshot are as before. -/
theorem UpdateExternalNetworkInfo_frame (get : String → Option HttpResponse)
    (unmarshal : String → Option GeoResult) (hasCallback : Bool) (i : Info)
    (n0 : NetworkInfo) (rest : List NetworkInfo) (h : i.Networks = n0 :: rest) :
    ∃ first : NetworkInfo,
      (UpdateExternalNetworkInfo get unmarshal hasCallback i).info.Networks = first :: rest ∧
      first.ExternalIP = (getExternalIP get).1 ∧
      first.Country = (getCountry get unmarshal (getExternalIP get).1).1 ∧
      first.Interface = n0.Interface ∧ first.ConnectionType = n0.ConnectionType ∧
      first.IPAddress = n0.IPAddress ∧ first.MACAddress = n0.MACAddress ∧
      first.ESSID = n0.ESSID ∧ first.Gateway = n0.Gateway ∧ first.DNS = n0.DNS ∧
      (UpdateExternalNetworkInfo get unmarshal hasCallback i).info.Networks.length
        = i.Networks.length ∧
      (UpdateExternalNetworkInfo get unmarshal hasCallback i).info
        = { i with Networks := first :: rest } ∧
      (UpdateExternalNetworkInfo get unmarshal hasCallback i).callbackCalls
        = (if hasCallback then 1 else 0) := by
  refine ⟨{ n0 with ExternalIP := (getExternalIP get).1,
                    Country := (getCountry get unmarshal (getExternalIP get).1).1 }, ?_⟩
  simp [UpdateExternalNetworkInfo, h, List.modifyHead]

/-- Witness for C5: with a stub public-IP source returning "203.0.113.7" and
a stub geolocation response of status "success" and country "Example", the
single entry ends with that external IP and that country, its other fields
unchanged. -/
theorem UpdateExternalNetworkInfo_frame_witness :
    (∃ first : NetworkInfo,
      (UpdateExternalNetworkInfo
          (stubGet "\x7b\"status\":\"success\",\"country\":\"Example\"\x7d")
          stubUnmarshal true sampleInfo).info.Networks = first :: [] ∧
      first.ExternalIP = "203.0.113.7" ∧ first.Country = "Example" ∧
      first.Interface = "eth0" ∧ first.ConnectionType = "Ethernet" ∧
      first.IPAddress = "192.168.128.17" ∧ first.MACAddress = "00:11:22:33:44:55" ∧
      first.ESSID = "" ∧ first.Gateway = "192.168.128.2" ∧ first.DNS = ["192.168.128.2"]) := by
  obtain ⟨first, h1, h2, h3, h4, h5, h6, h7, h8, h9, h10, _⟩ :=
    UpdateExternalNetworkInfo_frame
      (stubGet "\x7b\"status\":\"success\",\"country\":\"Example\"\x7d")
      stubUnmarshal true sampleInfo _ [] rfl
  refine ⟨first, h1, ?_, ?_, h4, h5, h6, h7, h8, h9, h10⟩
  · rw [h2]; decide
  · rw [h3]; decide

/-- C6 (as stated, refuted): the empty external IP is not "N/A", and the
geolocation source answers status "success" with country "Testland", yet
`getCountry` returns "N/A" and requests nothing. -/
theorem getCountry_empty_ip :
    ("" : String) ≠ "N/A" ∧
    successfulLookup (stubGet "\x7b\"status\":\"success\",\"country\":\"Testland\"\x7d")
      stubUnmarshal (geoURL "") { Country := "Testland", Status := "success" } ∧
    getCountry (stubGet "\x7b\"status\":\"success\",\"country\":\"Testland\"\x7d")
      stubUnmarshal "" = ("N/A", []) := by
  refine ⟨by decide, ?_, by decide⟩
  exact ⟨{ StatusCode := 200,
           Body := some "\x7b\"status\":\"success\",\"country\":\"Testland\"\x7d" },
    "\x7b\"status\":\"success\",\"country\":\"Testland\"\x7d",
    by decide, by decide, by decide, by decide, by decide, by decide⟩

/-- C6 (amended): for an external IP that is neither "N/A" nor empty,
`getCountry` requests the geolocation URL once and returns the country field
of a successful lookup (transport succeeded, status 200, body parsed, status
"success", country non-empty), and "N/A" when there is no successful lookup;
for the external IP "N/A" or "" it returns "N/A" and requests nothing. -/
theorem getCountry_spec (get : String → Option HttpResponse)
    (unmarshal : String → Option GeoResult) (externalIP : String) :
    ((externalIP ≠ "N/A" ∧ externalIP ≠ "") →
      (∀ r, successfulLookup get unmarshal (geoURL externalIP) r →
        (getCountry get unmarshal externalIP).1 = r.Country) ∧
      ((¬ ∃ r, successfulLookup get unmarshal (geoURL externalIP) r) →
        (getCountry get unmarshal externalIP).1 = "N/A") ∧
      (getCountry get unmarshal externalIP).2 = [geoURL externalIP]) ∧
    getCountry get unmarshal "N/A" = ("N/A", []) ∧
    getCountry get unmarshal "" = ("N/A", []) := by
  refine ⟨?_, by simp [getCountry], by simp [getCountry]⟩
  rintro ⟨hna, hne⟩
  have hguard : ¬ (externalIP = "N/A" ∨ externalIP = "") := by
    rintro (h | h)
    · exact hna h
    · exact hne h
  refine ⟨?_, ?_, ?_⟩
  · rintro r ⟨resp, body, hget, hcode, hbody, hum, hst, hco⟩
    unfold getCountry
    rw [if_neg hguard]
    unfold geoURL at hget
    simp [hget, hcode, statusOK, hbody, hum, hst, hco]
  · intro hno
    unfold getCountry
    rw [if_neg hguard]
    simp only
    cases hget : get ("http://ip-api.com/json/" ++ externalIP ++ "?fields=status,country") with
    | none => rfl
    | some resp =>
      simp only
      by_cases hcode : resp.StatusCode = statusOK
      · rw [if_neg (by simpa using hcode)]
        cases hbody : resp.Body with
        | none => rfl
        | some body =>
          simp only
          cases hum : unmarshal body with
          | none => rfl
          | some r =>
            simp only
            by_cases hs : r.Status = "success" ∧ r.Country ≠ ""
            · exact absurd ⟨r, resp, body, hget, hcode, hbody, hum, hs.1, hs.2⟩ hno
            · rw [if_neg hs]
      · rw [if_pos hcode]
  · unfold getCountry geoURL
    rw [if_neg hguard]
    simp only
    split
    · rfl
    · split_ifs
      · rfl
      · split
        · rfl
        · split
          · rfl
          · split_ifs <;> rfl

/-- Witness for C6: the response of status "success" and country "Testland"
resolves to "Testland"; the response of status "fail" and a malformed body
resolve to "N/A". -/
theorem getCountry_spec_witness :
    (getCountry (stubGet "\x7b\"status\":\"success\",\"country\":\"Testland\"\x7d")
      stubUnmarshal "203.0.113.7").1 = "Testland" ∧
    (getCountry (stubGet "\x7b\"status\":\"fail\"\x7d") stubUnmarshal "203.0.113.7").1 = "N/A" ∧
    (getCountry (stubGet "not json") stubUnmarshal "203.0.113.7").1 = "N/A" :=
  ⟨((getCountry_spec (stubGet "\x7b\"status\":\"success\",\"country\":\"Testland\"\x7d")
      stubUnmarshal "203.0.113.7").1 ⟨by decide, by decide⟩).1
      { Country := "Testland", Status := "success" }
      ⟨{ StatusCode := 200,
         Body := some "\x7b\"status\":\"success\",\"country\":\"Testland\"\x7d" },
       "\x7b\"status\":\"success\",\"country\":\"Testland\"\x7d",
       by decide, by decide, by decide, by decide, by decide, by decide⟩,
   by decide, by decide⟩

/-! ### Battery probe -/

theorem readAdapterLoop_frame (fs : FileSystem) (l : List String) (i : Info) :
    (readAdapterLoop fs l i).BatteryPercent = i.BatteryPercent ∧
    (readAdapterLoop fs l i).BatteryStatus = i.BatteryStatus ∧
    (readAdapterLoop fs l i).BatteryTemp = i.BatteryTemp := by
  induction l with
  | nil => simp [readAdapterLoop]
  | cons a rest ih =>
    unfold readAdapterLoop
    simp only
    split
    · simp
    · exact ih

theorem readAdapterLoop_online (fs : FileSystem) (l : List String) (i : Info) :
    (readAdapterLoop fs l i).AdapterOnline =
      match l.findSome? (fun a => fs.readFile ("/sys/class/power_supply/" ++ a ++ "/online")) with
      | none => i.AdapterOnline
      | some data => decide (sscanfD data 0 = 1) := by
  induction l with
  | nil => simp [readAdapterLoop]
  | cons a rest ih =>
    unfold readAdapterLoop
    rw [List.findSome?_cons]
    simp only
    cases h : fs.readFile ("/sys/class/power_supply/" ++ a ++ "/online") with
    | none => simp only [h]; exact ih
    | some data => simp only [h]

theorem readBatteryFromSysLinux_online (fs : FileSystem) (i : Info) (basePath : String) :
    (readBatteryFromSysLinux fs i basePath).AdapterOnline = i.AdapterOnline := by
  unfold readBatteryFromSysLinux
  cases fs.readFile (basePath ++ "/capacity") <;> cases fs.readFile (basePath ++ "/status") <;>
    cases fs.readFile (basePath ++ "/temp") <;> rfl

theorem readBatteryLoop_online (fs : FileSystem) (l : List String) (i : Info) :
    (readBatteryLoop fs l i).AdapterOnline = i.AdapterOnline := by
  induction l with
  | nil => rfl
  | cons b rest ih =>
    unfold readBatteryLoop
    simp only
    split_ifs
    · exact readBatteryFromSysLinux_online fs i _
    · exact ih

theorem readBatteryFromSysLinux_fields (fs : FileSystem) (i : Info) (basePath : String) :
    (readBatteryFromSysLinux fs i basePath).BatteryPercent =
      (match fs.readFile (basePath ++ "/capacity") with
        | none => i.BatteryPercent
        | some data => sscanfD data i.BatteryPercent) ∧
    (readBatteryFromSysLinux fs i basePath).BatteryStatus =
      (match fs.readFile (basePath ++ "/status") with
        | none => i.BatteryStatus
        | some data => stringsTrimSpace data) ∧
    (readBatteryFromSysLinux fs i basePath).BatteryTemp =
      (match fs.readFile (basePath ++ "/temp") with
        | none => i.BatteryTemp
        | some data => Float.ofInt (sscanfD data 0) / 10.0) := by
  unfold readBatteryFromSysLinux
  cases fs.readFile (basePath ++ "/capacity") <;> cases fs.readFile (basePath ++ "/status") <;>
    cases fs.readFile (basePath ++ "/temp") <;> simp

/-- C7: on a non-Darwin platform, when neither the BAT0 nor the BAT1 base path
exists the probe leaves percent 0, status "N/A" and temperature 0.0 whatever
the adapter files hold; when a base path exists (BAT0 first), each of capacity,
status and temp that cannot be read leaves its field at the default, and each
that can be read fills its field: the scanned integer, the trimmed text, the
scanned integer divided by 10.0. -/
theorem collectBatteryInfo_battery (goos : String) (fs : FileSystem) (i : Info)
    (hg : goos ≠ "darwin") :
    ((fs.stat "/sys/class/power_supply/BAT0" = false ∧
        fs.stat "/sys/class/power_supply/BAT1" = false) →
      (collectBatteryInfo goos fs i).BatteryPercent = 0 ∧
      (collectBatteryInfo goos fs i).BatteryStatus = "N/A" ∧
      (collectBatteryInfo goos fs i).BatteryTemp = 0.0) ∧
    (∀ base : String,
      ((fs.stat "/sys/class/power_supply/BAT0" = true ∧ base = "/sys/class/power_supply/BAT0") ∨
       (fs.stat "/sys/class/power_supply/BAT0" = false ∧
        fs.stat "/sys/class/power_supply/BAT1" = true ∧
        base = "/sys/class/power_supply/BAT1")) →
      (fs.readFile (base ++ "/capacity") = none →
        (collectBatteryInfo goos fs i).BatteryPercent = 0) ∧
      (∀ data, fs.readFile (base ++ "/capacity") = some data →
        (collectBatteryInfo goos fs i).BatteryPercent = sscanfD data 0) ∧
      (fs.readFile (base ++ "/status") = none →
        (collectBatteryInfo goos fs i).BatteryStatus = "N/A") ∧
      (∀ data, fs.readFile (base ++ "/status") = some data →
        (collectBatteryInfo goos fs i).BatteryStatus = stringsTrimSpace data) ∧
      (fs.readFile (base ++ "/temp") = none →
        (collectBatteryInfo goos fs i).BatteryTemp = 0.0) ∧
      (∀ data, fs.readFile (base ++ "/temp") = some data →
        (collectBatteryInfo goos fs i).BatteryTemp = Float.ofInt (sscanfD data 0) / 10.0)) := by
  have p0 : "/sys/class/power_supply/" ++ "BAT0" = "/sys/class/power_supply/BAT0" := by decide
  have p1 : "/sys/class/power_supply/" ++ "BAT1" = "/sys/class/power_supply/BAT1" := by decide
  have hf := fun j => readAdapterLoop_frame fs adapters j
  constructor
  · rintro ⟨h0, h1⟩
    simp only [collectBatteryInfo, if_neg hg, readBatteryLinux, (hf _).1, (hf _).2.1, (hf _).2.2,
      batteries, readBatteryLoop, p0, p1, h0, h1]
    simp
  · intro base hbase
    have hloop : ∀ j, readBatteryLoop fs batteries j = readBatteryFromSysLinux fs j base := by
      intro j
      rcases hbase with ⟨h0, rfl⟩ | ⟨h0, h1, rfl⟩
      · simp [batteries, readBatteryLoop, p0, h0]
      · simp [batteries, readBatteryLoop, p0, p1, h0, h1]
    have hfields := fun j => readBatteryFromSysLinux_fields fs j base
    simp only [collectBatteryInfo, if_neg hg, readBatteryLinux, (hf _).1, (hf _).2.1, (hf _).2.2,
      hloop, (hfields _).1, (hfields _).2.1, (hfields _).2.2]
    refine ⟨?_, ?_, ?_, ?_, ?_, ?_⟩
    · intro h; rw [h]
    · intro data h; rw [h]
    · intro h; rw [h]
    · intro data h; rw [h]
    · intro h; rw [h]
    · intro data h; rw [h]

/-- Witness for C7: a machine with battery BAT1 only, whose temp file is
missing, reports the capacity and the trimmed status and keeps temperature
0.0; a machine with no battery keeps all three defaults. -/
theorem collectBatteryInfo_battery_witness :
    ((collectBatteryInfo "linux" (fsOfFiles sampleFiles) Info.zero).BatteryPercent = 85 ∧
     (collectBatteryInfo "linux" (fsOfFiles sampleFiles) Info.zero).BatteryStatus
        = "Discharging" ∧
     (collectBatteryInfo "linux" (fsOfFiles sampleFiles) Info.zero).BatteryTemp = 0.0) ∧
    ((collectBatteryInfo "linux"
        (fsOfFiles [("/sys/class/power_supply/AC/online", "1\n")]) Info.zero).BatteryPercent = 0 ∧
     (collectBatteryInfo "linux"
        (fsOfFiles [("/sys/class/power_supply/AC/online", "1\n")]) Info.zero).BatteryStatus
        = "N/A" ∧
     (collectBatteryInfo "linux"
        (fsOfFiles [("/sys/class/power_supply/AC/online", "1\n")]) Info.zero).BatteryTemp
        = 0.0) := by
  have hw := (collectBatteryInfo_battery "linux" (fsOfFiles sampleFiles) Info.zero
    (by decide)).2 "/sys/class/power_supply/BAT1"
    (Or.inr ⟨by decide, by decide, rfl⟩)
  have hn := (collectBatteryInfo_battery "linux"
    (fsOfFiles [("/sys/class/power_supply/AC/online", "1\n")]) Info.zero (by decide)).1
    ⟨by decide, by decide⟩
  refine ⟨⟨?_, ?_, hw.2.2.2.2.1 (by decide)⟩, hn⟩
  · rw [hw.2.1 "85\n" (by decide)]; decide
  · rw [hw.2.2.2.1 "Discharging\n" (by decide)]; decide

/-- C8 (as stated, refuted): with adapter AC readable and offline ("0") and
adapter AC0 readable with value 1, the probe reports `AdapterOnline = false`
although one of the four adapters parses as 1. -/
theorem collectBatteryInfo_adapter_first_readable :
    (fsOfFiles sampleFiles).readFile "/sys/class/power_supply/AC0/online" = some "1\n" ∧
    sscanfD "1\n" 0 = 1 ∧
    (collectBatteryInfo "linux" (fsOfFiles sampleFiles) Info.zero).AdapterOnline = false := by
  decide

/-- C8 (amended): on a non-Darwin platform `AdapterOnline` is decided by the
first adapter, in the order AC, AC0, ADP0, ADP1, whose online file can be
read: it is true exactly when that file scans as the integer 1. Hence it is
false when no adapter file is readable, and it is true only if some adapter
has a readable value that scans as 1. -/
theorem collectBatteryInfo_adapter (goos : String) (fs : FileSystem) (i : Info)
    (hg : goos ≠ "darwin") :
    (collectBatteryInfo goos fs i).AdapterOnline =
      (match firstReadableAdapter fs with
        | none => false
        | some data => decide (sscanfD data 0 = 1)) ∧
    ((∀ a ∈ adapters, fs.readFile ("/sys/class/power_supply/" ++ a ++ "/online") = none) →
      (collectBatteryInfo goos fs i).AdapterOnline = false) ∧
    ((collectBatteryInfo goos fs i).AdapterOnline = true →
      ∃ a ∈ adapters, ∃ data,
        fs.readFile ("/sys/class/power_supply/" ++ a ++ "/online") = some data ∧
        sscanfD data 0 = 1) := by
  have hmain : (collectBatteryInfo goos fs i).AdapterOnline =
      (match firstReadableAdapter fs with
        | none => false
        | some data => decide (sscanfD data 0 = 1)) := by
    simp only [collectBatteryInfo, if_neg hg, readBatteryLinux, readAdapterLoop_online,
      readBatteryLoop_online, firstReadableAdapter]
  refine ⟨hmain, ?_, ?_⟩
  · intro hnone
    rw [hmain]
    have : firstReadableAdapter fs = none := by
      unfold firstReadableAdapter
      rw [List.findSome?_eq_none_iff]
      exact hnone
    rw [this]
  · intro hon
    rw [hmain] at hon
    cases hfr : firstReadableAdapter fs with
    | none => rw [hfr] at hon; exact absurd hon (by simp)
    | some data =>
      rw [hfr] at hon
      unfold firstReadableAdapter at hfr
      obtain ⟨a, ha, hread⟩ := List.exists_of_findSome?_eq_some hfr
      exact ⟨a, ha, data, hread, by simpa using hon⟩

/-- Witness for C8: one readable adapter with value 1 gives online, no
readable adapter gives offline. -/
theorem collectBatteryInfo_adapter_witness :
    (collectBatteryInfo "linux"
      (fsOfFiles [("/sys/class/power_supply/ADP1/online", "1\n")]) Info.zero).AdapterOnline
      = true ∧
    (collectBatteryInfo "linux" (fsOfFiles []) Info.zero).AdapterOnline = false :=
  ⟨by
    rw [(collectBatteryInfo_adapter "linux"
      (fsOfFiles [("/sys/class/power_supply/ADP1/online", "1\n")]) Info.zero (by decide)).1]
    decide,
   (collectBatteryInfo_adapter "linux" (fsOfFiles []) Info.zero (by decide)).2.1 (by decide)⟩

/-! ### OS probe -/

/-- C9 (as stated, refuted): on platform "linux" with a failing `host.Info`,
`OSType` is "linux", not "Unknown". -/
theorem collectOSInfo_failure_ostype :
    (collectOSInfo "linux" none Info.zero).OSType = "linux" ∧
    (collectOSInfo "linux" none Info.zero).OSType ≠ "Unknown" := by
  decide

/-- C9 (amended): when `host.Info` fails, `Distribution` and `OSVersion` are
"Unknown" and `OSType` is the platform tag itself; when it succeeds, `OSType`
is "macOS" for the tag "darwin" and "Linux" for every other tag. -/
theorem collectOSInfo_spec (goos : String) (i : Info) :
    (collectOSInfo goos none i).OSType = goos ∧
    (collectOSInfo goos none i).Distribution = "Unknown" ∧
    (collectOSInfo goos none i).OSVersion = "Unknown" ∧
    (∀ hostInfo : InfoStat,
      (goos = "darwin" → (collectOSInfo goos (some hostInfo) i).OSType = "macOS") ∧
      (goos ≠ "darwin" → (collectOSInfo goos (some hostInfo) i).OSType = "Linux")) := by
  refine ⟨rfl, rfl, rfl, fun hostInfo => ⟨?_, ?_⟩⟩
  · intro h
    simp [collectOSInfo, h]
  · intro h
    simp [collectOSInfo, h]

/-- Witness for C9: the tags "darwin" and "freebsd" with a working
`host.Info`. -/
theorem collectOSInfo_spec_witness :
    (collectOSInfo "darwin"
      (some { Uptime := 0, Platform := "darwin", PlatformVersion := "14.1",
              KernelVersion := "23.1.0" }) Info.zero).OSType = "macOS" ∧
    (collectOSInfo "freebsd"
      (some { Uptime := 0, Platform := "freebsd", PlatformVersion := "14.0",
              KernelVersion := "14.0-RELEASE" }) Info.zero).OSType = "Linux" :=
  ⟨((collectOSInfo_spec "darwin" Info.zero).2.2.2 _).1 rfl,
   ((collectOSInfo_spec "freebsd" Info.zero).2.2.2 _).2 (by decide)⟩

/-! ### Network probe -/

theorem hasIPv4Loop_eq_any (l : List InterfaceAddr) :
    hasIPv4Loop l = l.any (fun a => stringsContains a.Addr ".") := by
  induction l with
  | nil => rfl
  | cons a rest ih =>
    simp only [hasIPv4Loop, List.any_cons, ih]
    cases stringsContains a.Addr "." <;> simp

theorem firstIPv4Loop_eq (n : NetworkInfo) (l : List InterfaceAddr) :
    firstIPv4Loop n l =
      { n with IPAddress := (Option.getD
          ((l.find? (fun a => stringsContains a.Addr ".")).map (fun a => a.Addr)) n.IPAddress) } := by
  induction l with
  | nil => rfl
  | cons a rest ih =>
    unfold firstIPv4Loop
    rw [List.find?_cons]
    cases h : stringsContains a.Addr "."
    · simp only [h, Bool.false_eq_true, if_false]
      exact ih
    · simp only [h, if_true, Option.map_some', Option.getD_some]

theorem collectNetworkLoop_cons (env : NetEnv) (gw active : String) (iface : InterfaceStat)
    (rest : List InterfaceStat) (networks : List NetworkInfo) :
    collectNetworkLoop env gw active (iface :: rest) networks =
      if eligibleSpec active iface then networks ++ [buildNetInfo env gw iface]
      else collectNetworkLoop env gw active rest networks := by
  rw [collectNetworkLoop]
  unfold eligibleSpec
  rw [hasIPv4Loop_eq_any]
  by_cases hlo : hasPrefix iface.Name "lo" = true
  · simp [hlo]
  · by_cases hany : (iface.Addrs.any fun a => stringsContains a.Addr ".") = true
    · have hlen : iface.Addrs.length ≠ 0 := by
        intro h0
        rw [List.length_eq_zero] at h0
        rw [h0] at hany
        simp at hany
      by_cases ha : active = ""
      · simp [hlo, hany, hlen, ha]
      · by_cases hn : iface.Name = active
        · subst hn
          simp [hlo, hany, hlen]
        · simp [hlo, hany, hlen, ha, hn]
    · by_cases hlen : iface.Addrs.length = 0
      · simp [hlo, hany, hlen]
      · by_cases hact : active ≠ "" ∧ iface.Name ≠ active
        · simp [hlo, hany, hlen, hact]
        · simp [hlo, hany, hlen, hact]

theorem collectNetworkLoop_find (env : NetEnv) (gw active : String) (ifs : List InterfaceStat)
    (networks : List NetworkInfo) :
    collectNetworkLoop env gw active ifs networks =
      networks ++ ((ifs.find? (eligibleSpec active)).map (buildNetInfo env gw)).toList := by
  induction ifs with
  | nil => simp [collectNetworkLoop]
  | cons iface rest ih =>
    rw [collectNetworkLoop_cons, List.find?_cons]
    cases h : eligibleSpec active iface
    · simp only [Bool.false_eq_true, if_false]
      exact ih
    · simp

theorem buildNetInfo_fields (env : NetEnv) (gw : String) (iface : InterfaceStat) :
    (buildNetInfo env gw iface).Interface = iface.Name ∧
    (buildNetInfo env gw iface).MACAddress = iface.HardwareAddr ∧
    (buildNetInfo env gw iface).IPAddress =
      ((iface.Addrs.find? (fun a => stringsContains a.Addr ".")).map (fun a => a.Addr)).getD "" ∧
    (buildNetInfo env gw iface).ConnectionType = connectionTypeSpec iface.Name ∧
    (buildNetInfo env gw iface).Gateway = gw ∧
    (buildNetInfo env gw iface).DNS = getDNSServers env.resolv ∧
    (buildNetInfo env gw iface).ExternalIP = "searching..." ∧
    (buildNetInfo env gw iface).Country = "searching..." := by
  unfold buildNetInfo connectionTypeSpec
  simp only [firstIPv4Loop_eq]
  by_cases h1 : (hasPrefix iface.Name "wl" || hasPrefix iface.Name "wlan") = true
  · have h1' : hasPrefix iface.Name "wl" = true ∨ hasPrefix iface.Name "wlan" = true := by
      simpa using h1
    simp [h1, h1']
  · have h1' : ¬ (hasPrefix iface.Name "wl" = true ∨ hasPrefix iface.Name "wlan" = true) := by
      simpa using h1
    by_cases h2 : (hasPrefix iface.Name "en" || hasPrefix iface.Name "eth") = true
    · have h2' : hasPrefix iface.Name "en" = true ∨ hasPrefix iface.Name "eth" = true := by
        simpa using h2
      simp [h1, h1', h2, h2']
    · have h2' : ¬ (hasPrefix iface.Name "en" = true ∨ hasPrefix iface.Name "eth" = true) := by
        simpa using h2
      simp [h1, h1', h2, h2']

/-- C11: from an empty `Networks` list, `collectNetworkInfo` produces at most
one entry; it produces one exactly when some interface has a name not
starting with "lo", an address containing "." and, for a non-empty
active-interface name, that name; the entry describes the first such
interface: its name, its first address containing ".", the connection type by
name prefix, and the placeholder "searching..." as external IP and country. -/
theorem collectNetworkInfo_spec (env : NetEnv) (gw active : String)
    (ifs : List InterfaceStat) (i : Info) (h0 : i.Networks = []) :
    (collectNetworkInfo (some ifs) env i).Networks =
      collectNetworkLoop env (getDefaultGateway env.route) (getActiveInterface env.route)
        ifs [] ∧
    (collectNetworkLoop env gw active ifs []).length ≤ 1 ∧
    (collectNetworkLoop env gw active ifs [] ≠ [] ↔
      ∃ iface ∈ ifs, eligibleSpec active iface = true) ∧
    (∀ iface, ifs.find? (eligibleSpec active) = some iface →
      ∃ entry addr, collectNetworkLoop env gw active ifs [] = [entry] ∧
        entry.Interface = iface.Name ∧
        iface.Addrs.find? (fun a => stringsContains a.Addr ".") = some addr ∧
        entry.IPAddress = addr.Addr ∧
        entry.ConnectionType = connectionTypeSpec iface.Name ∧
        entry.ExternalIP = "searching..." ∧ entry.Country = "searching...") := by
  refine ⟨?_, ?_, ?_, ?_⟩
  · simp only [collectNetworkInfo, h0]
  · rw [collectNetworkLoop_find]
    cases ifs.find? (eligibleSpec active) <;> simp
  · rw [collectNetworkLoop_find]
    constructor
    · intro hne
      cases hf : ifs.find? (eligibleSpec active) with
      | none => rw [hf] at hne; simp at hne
      | some iface =>
        exact ⟨iface, List.mem_of_find?_eq_some hf, List.find?_some hf⟩
    · rintro ⟨iface, hmem, hel⟩
      have hsome : (ifs.find? (eligibleSpec active)).isSome = true := by
        rw [List.find?_isSome]
        exact ⟨iface, hmem, hel⟩
      obtain ⟨x, hx⟩ := Option.isSome_iff_exists.mp hsome
      rw [hx]
      simp
  · intro iface hf
    have hel : eligibleSpec active iface = true := List.find?_some hf
    have hany : (iface.Addrs.any fun a => stringsContains a.Addr ".") = true := by
      unfold eligibleSpec at hel
      simp only [Bool.and_eq_true] at hel
      exact hel.1.2
    have hsome : (iface.Addrs.find? (fun a => stringsContains a.Addr ".")).isSome = true := by
      rw [List.find?_isSome]
      simpa using hany
    obtain ⟨addr, haddr⟩ := Option.isSome_iff_exists.mp hsome
    have hb := buildNetInfo_fields env gw iface
    refine ⟨buildNetInfo env gw iface, addr, ?_, hb.1, haddr, ?_, hb.2.2.2.1,
      hb.2.2.2.2.2.2.1, hb.2.2.2.2.2.2.2⟩
    · rw [collectNetworkLoop_find, hf]
      rfl
    · rw [hb.2.2.1, haddr]
      rfl

/-- Witness for C11: among loopback, a wired interface without IPv4 address,
the wireless interface and a bridge, with "wlp2s0" active, the single entry
describes "wlp2s0". -/
theorem collectNetworkInfo_spec_witness :
    (collectNetworkInfo (some sampleInterfaces) sampleNetEnv Info.zero).Networks =
      collectNetworkLoop sampleNetEnv (getDefaultGateway sampleNetEnv.route)
        (getActiveInterface sampleNetEnv.route) sampleInterfaces [] ∧
    (collectNetworkInfo (some sampleInterfaces) sampleNetEnv Info.zero).Networks =
      [{ ConnectionType := "WiFi", Country := "searching...",
         DNS := ["192.168.128.2", "1.1.1.1"], ESSID := "home",
         ExternalIP := "searching...", Gateway := "192.168.128.2",
         Interface := "wlp2s0", IPAddress := "192.168.128.17/24",
         MACAddress := "66:77:88:99:aa:bb" }] ∧
    (collectNetworkLoop sampleNetEnv "N/A" "" sampleInterfaces []).map
      (fun n => (n.Interface, n.ConnectionType)) = [("wlp2s0", "WiFi")] ∧
    (collectNetworkLoop sampleNetEnv "N/A" "docker0" sampleInterfaces []).map
      (fun n => (n.Interface, n.ConnectionType)) = [("docker0", "Other")] :=
  ⟨(collectNetworkInfo_spec sampleNetEnv "N/A" "" sampleInterfaces Info.zero rfl).1,
   by decide, by decide, by decide⟩

/-! ### `float64` rounding -/

theorem roundHalfEven_intCast (n : ℤ) : roundHalfEven (n : ℚ) = n := by
  unfold roundHalfEven
  simp

theorem roundHalfEven_mono {x y : ℚ} (h : x ≤ y) : roundHalfEven x ≤ roundHalfEven y := by
  have hfl : ⌊x⌋ ≤ ⌊y⌋ := Int.floor_le_floor h
  rcases lt_or_eq_of_le hfl with hlt | heq
  · unfold roundHalfEven
    split_ifs <;> omega
  · unfold roundHalfEven
    rw [heq]
    split_ifs <;> first | omega | (exfalso; linarith)

theorem ulp_pos (x : ℚ) : 0 < ulp x := by
  unfold ulp
  exact zpow_pos (by norm_num) _

theorem div_ulp_bounds {x : ℚ} (hx : 0 < x) :
    (2 : ℚ) ^ (52 : ℕ) ≤ x / ulp x ∧ x / ulp x < (2 : ℚ) ^ (53 : ℕ) := by
  have hlo := Int.zpow_log_le_self (b := 2) (r := x) (by norm_num) hx
  have hhi := Int.lt_zpow_succ_log_self (b := 2) (by norm_num) x
  have hu := ulp_pos x
  have habs : |x| = x := abs_of_pos hx
  have e1 : (2 : ℚ) ^ (52 : ℕ) * ulp x = (2 : ℚ) ^ (Int.log 2 x) := by
    unfold ulp
    rw [habs, ← zpow_natCast, ← zpow_add₀ (by norm_num : (2 : ℚ) ≠ 0)]
    congr 1
    push_cast
    ring
  have e2 : (2 : ℚ) ^ (53 : ℕ) * ulp x = (2 : ℚ) ^ (Int.log 2 x + 1) := by
    unfold ulp
    rw [habs, ← zpow_natCast, ← zpow_add₀ (by norm_num : (2 : ℚ) ≠ 0)]
    congr 1
    push_cast
    ring
  constructor
  · rw [le_div_iff₀ hu, e1]
    exact_mod_cast hlo
  · rw [div_lt_iff₀ hu, e2]
    exact_mod_cast hhi

theorem roundFloat64_bounds {x : ℚ} (hx : 0 < x) :
    (2 : ℚ) ^ (Int.log 2 x) ≤ roundFloat64 x ∧ roundFloat64 x ≤ (2 : ℚ) ^ (Int.log 2 x + 1) := by
  have hb := div_ulp_bounds hx
  have hu := ulp_pos x
  have habs : |x| = x := abs_of_pos hx
  have h1 : ((2 ^ 52 : ℤ) : ℚ) ≤ x / ulp x := by push_cast; exact hb.1
  have h2 : x / ulp x ≤ ((2 ^ 53 : ℤ) : ℚ) := by push_cast; exact hb.2.le
  have r1 := roundHalfEven_mono h1
  have r2 := roundHalfEven_mono h2
  rw [roundHalfEven_intCast] at r1 r2
  have q1 : ((2 : ℚ) ^ (52 : ℕ)) ≤ (roundHalfEven (x / ulp x) : ℚ) := by exact_mod_cast r1
  have q2 : (roundHalfEven (x / ulp x) : ℚ) ≤ (2 : ℚ) ^ (53 : ℕ) := by exact_mod_cast r2
  have e1 : (2 : ℚ) ^ (52 : ℕ) * ulp x = (2 : ℚ) ^ (Int.log 2 x) := by
    unfold ulp
    rw [habs, ← zpow_natCast, ← zpow_add₀ (by norm_num : (2 : ℚ) ≠ 0)]
    congr 1
    push_cast
    ring
  have e2 : (2 : ℚ) ^ (53 : ℕ) * ulp x = (2 : ℚ) ^ (Int.log 2 x + 1) := by
    unfold ulp
    rw [habs, ← zpow_natCast, ← zpow_add₀ (by norm_num : (2 : ℚ) ≠ 0)]
    congr 1
    push_cast
    ring
  unfold roundFloat64
  rw [if_neg hx.ne']
  constructor
  · rw [← e1]
    exact mul_le_mul_of_nonneg_right q1 hu.le
  · rw [← e2]
    exact mul_le_mul_of_nonneg_right q2 hu.le

theorem roundFloat64_mono {x y : ℚ} (hx : 0 ≤ x) (h : x ≤ y) :
    roundFloat64 x ≤ roundFloat64 y := by
  rcases eq_or_lt_of_le hx with h0 | hpos
  · subst h0
    rcases eq_or_lt_of_le h with h0 | hy
    · rw [← h0]
    · have := (roundFloat64_bounds hy).1
      have hp : (0 : ℚ) < (2 : ℚ) ^ (Int.log 2 y) := zpow_pos (by norm_num) _
      have h00 : roundFloat64 0 = 0 := by simp [roundFloat64]
      rw [h00]
      linarith
  · have hy : 0 < y := lt_of_lt_of_le hpos h
    have hlog : Int.log 2 x ≤ Int.log 2 y := Int.log_mono_right hpos h
    rcases lt_or_eq_of_le hlog with hlt | heq
    · have b1 := (roundFloat64_bounds hpos).2
      have b2 := (roundFloat64_bounds hy).1
      have : (2 : ℚ) ^ (Int.log 2 x + 1) ≤ (2 : ℚ) ^ (Int.log 2 y) :=
        zpow_le_zpow_right₀ (by norm_num) (by omega)
      linarith
    · have hu : ulp x = ulp y := by
        unfold ulp
        rw [abs_of_pos hpos, abs_of_pos hy, heq]
      unfold roundFloat64
      rw [if_neg hpos.ne', if_neg hy.ne', hu]
      have hd : x / ulp y ≤ y / ulp y := div_le_div_of_nonneg_right h (ulp_pos y).le
      have := roundHalfEven_mono hd
      exact mul_le_mul_of_nonneg_right (by exact_mod_cast this) (ulp_pos y).le

theorem roundFloat64_exact (m t : ℕ) (hm : m < 2 ^ 53) :
    roundFloat64 ((m : ℚ) / 2 ^ t) = (m : ℚ) / 2 ^ t := by
  rcases Nat.eq_zero_or_pos m with h0 | hpos
  · subst h0
    simp [roundFloat64]
  · have hx : (0 : ℚ) < (m : ℚ) / 2 ^ t := by positivity
    have hlt : (m : ℚ) / 2 ^ t < (2 : ℚ) ^ ((53 : ℤ) - t) := by
      rw [zpow_sub₀ (by norm_num : (2 : ℚ) ≠ 0), zpow_natCast]
      apply div_lt_div_of_pos_right _ (by positivity)
      have : (m : ℚ) < ((2 ^ 53 : ℕ) : ℚ) := by exact_mod_cast hm
      rw [Nat.cast_pow] at this
      exact_mod_cast this
    have hlog : Int.log 2 ((m : ℚ) / 2 ^ t) < (53 : ℤ) - t := by
      have := (Int.lt_zpow_iff_log_lt (b := 2) (by norm_num) hx (x := (53 : ℤ) - t)).mp
        (by exact_mod_cast hlt)
      exact this
    obtain ⟨k, hk⟩ : ∃ k : ℕ, (k : ℤ) = 52 - t - Int.log 2 ((m : ℚ) / 2 ^ t) :=
      ⟨(52 - t - Int.log 2 ((m : ℚ) / 2 ^ t)).toNat, Int.toNat_of_nonneg (by omega)⟩
    have hulp : ulp ((m : ℚ) / 2 ^ t) = ((2 : ℚ) ^ t)⁻¹ * ((2 : ℚ) ^ k)⁻¹ := by
      unfold ulp
      rw [abs_of_pos hx]
      have : Int.log 2 ((m : ℚ) / 2 ^ t) - 52 = -(t : ℤ) + -(k : ℤ) := by omega
      rw [this, zpow_add₀ (by norm_num : (2 : ℚ) ≠ 0), zpow_neg, zpow_neg, zpow_natCast,
        zpow_natCast]
    have hdiv : (m : ℚ) / 2 ^ t / ulp ((m : ℚ) / 2 ^ t) = (((m * 2 ^ k : ℕ) : ℤ) : ℚ) := by
      rw [hulp]
      push_cast
      field_simp
      ring
    unfold roundFloat64
    rw [if_neg hx.ne', hdiv, roundHalfEven_intCast, hulp]
    push_cast
    field_simp
    ring

theorem roundFloat64_between (m1 m2 t : ℕ) (hm : m2 < 2 ^ 53) (x : ℚ)
    (h1 : (m1 : ℚ) / 2 ^ t ≤ x) (h2 : x ≤ (m2 : ℚ) / 2 ^ t) :
    (m1 : ℚ) / 2 ^ t ≤ roundFloat64 x ∧ roundFloat64 x ≤ (m2 : ℚ) / 2 ^ t := by
  have hle : (m1 : ℚ) / 2 ^ t ≤ (m2 : ℚ) / 2 ^ t := le_trans h1 h2
  have hm12 : m1 ≤ m2 := by
    have hp : (0 : ℚ) < 2 ^ t := by positivity
    have := (div_le_div_iff_of_pos_right hp).mp hle
    exact_mod_cast this
  have e1 := roundFloat64_exact m1 t (lt_of_le_of_lt hm12 hm)
  have e2 := roundFloat64_exact m2 t hm
  have hx0 : (0 : ℚ) ≤ (m1 : ℚ) / 2 ^ t := by positivity
  constructor
  · rw [← e1]
    exact roundFloat64_mono hx0 h1
  · rw [← e2]
    exact roundFloat64_mono (le_trans hx0 h1) h2

/-! ### Uptime -/

theorem float64_int_plus_fraction (a n c t : ℕ) (ha : a < 2 ^ 40) (hn : n < 2 ^ 53)
    (ht : t ≤ 12) (hc : 0 < c) (hfrac : ((n : ℚ) / c) ≤ ((2 ^ t - 1 : ℕ) : ℚ) / 2 ^ t) :
    (a : ℚ) ≤ float64Add (float64OfInt (a : ℤ)) (float64Div (float64OfInt (n : ℤ)) (c : ℚ)) ∧
    float64Add (float64OfInt (a : ℤ)) (float64Div (float64OfInt (n : ℤ)) (c : ℚ)) ≤
      (a : ℚ) + ((2 ^ t - 1 : ℕ) : ℚ) / 2 ^ t := by
  have hpow : (2 : ℕ) ^ t ≤ 2 ^ 12 := Nat.pow_le_pow_right (by norm_num) ht
  have hpos : 0 < 2 ^ t := by positivity
  have ea : float64OfInt (a : ℤ) = (a : ℚ) := by
    have := roundFloat64_exact a 0 (by omega)
    simpa [float64OfInt] using this
  have en : float64OfInt (n : ℤ) = (n : ℚ) := by
    have := roundFloat64_exact n 0 hn
    simpa [float64OfInt] using this
  have hq0 : (0 : ℚ) ≤ (n : ℚ) / c := by positivity
  have hf := roundFloat64_between 0 (2 ^ t - 1) t (by omega) ((n : ℚ) / c)
    (by simpa using hq0) hfrac
  rw [ea, en]
  unfold float64Add float64Div
  have hsum1 : ((a * 2 ^ t : ℕ) : ℚ) / 2 ^ t = (a : ℚ) := by
    push_cast
    field_simp
  have hsum2 : ((a * 2 ^ t + (2 ^ t - 1) : ℕ) : ℚ) / 2 ^ t =
      (a : ℚ) + ((2 ^ t - 1 : ℕ) : ℚ) / 2 ^ t := by
    rw [Nat.cast_add]
    push_cast
    field_simp
  have hbig : a * 2 ^ t + (2 ^ t - 1) < 2 ^ 53 := by
    have h1 : a * 2 ^ t ≤ a * 2 ^ 12 := Nat.mul_le_mul_left a hpow
    omega
  have := roundFloat64_between (a * 2 ^ t) (a * 2 ^ t + (2 ^ t - 1)) t hbig
    ((a : ℚ) + roundFloat64 ((n : ℚ) / c))
    (by rw [hsum1]; have := hf.1; simp at this; linarith)
    (by rw [hsum2]; have := hf.2; linarith)
  rw [hsum1, hsum2] at this
  exact this


theorem Hours_bounds (s : ℕ) (hs : s * 10 ^ 9 < 2 ^ 63) :
    ((s / 3600 : ℕ) : ℚ) ≤ Hours ((s : ℤ) * 1000000000) ∧
    Hours ((s : ℤ) * 1000000000) ≤ ((s / 3600 : ℕ) : ℚ) + 4095 / 4096 := by
  have hs' : s < 9223372037 := by omega
  have hdiv : Int.tdiv ((s : ℤ) * 1000000000) Hour = ((s / 3600 : ℕ) : ℤ) := by
    rw [Int.tdiv_eq_ediv (by omega) (by decide)]
    simp only [Hour, Minute, Second]
    omega
  have hmod : Int.tmod ((s : ℤ) * 1000000000) Hour = (((s % 3600) * 1000000000 : ℕ) : ℤ) := by
    rw [Int.tmod_eq_emod (by omega) (by decide)]
    simp only [Hour, Minute, Second]
    omega
  have hfrac : (((s % 3600) * 1000000000 : ℕ) : ℚ) / ((3600000000000 : ℕ) : ℚ) ≤
      ((2 ^ 12 - 1 : ℕ) : ℚ) / 2 ^ 12 := by
    rw [div_le_div_iff₀ (by norm_num) (by norm_num)]
    have h : (s % 3600) * 1000000000 * 2 ^ 12 ≤ (2 ^ 12 - 1) * 3600000000000 := by omega
    exact_mod_cast h
  have key := float64_int_plus_fraction (s / 3600) ((s % 3600) * 1000000000) 3600000000000 12
    (by omega) (by omega) (le_refl _) (by norm_num) hfrac
  unfold Hours
  simp only [hdiv, hmod]
  have hc : ((60 : ℚ) * 60 * 1000000000) = ((3600000000000 : ℕ) : ℚ) := by norm_num
  have hq : ((2 ^ 12 - 1 : ℕ) : ℚ) / 2 ^ 12 = 4095 / 4096 := by norm_num
  rw [hc]
  rw [hq] at key
  exact key

theorem Minutes_bounds (s : ℕ) (hs : s * 10 ^ 9 < 2 ^ 63) :
    ((s / 60 : ℕ) : ℚ) ≤ Minutes ((s : ℤ) * 1000000000) ∧
    Minutes ((s : ℤ) * 1000000000) ≤ ((s / 60 : ℕ) : ℚ) + 63 / 64 := by
  have hs' : s < 9223372037 := by omega
  have hdiv : Int.tdiv ((s : ℤ) * 1000000000) Minute = ((s / 60 : ℕ) : ℤ) := by
    rw [Int.tdiv_eq_ediv (by omega) (by decide)]
    simp only [Minute, Second]
    omega
  have hmod : Int.tmod ((s : ℤ) * 1000000000) Minute = (((s % 60) * 1000000000 : ℕ) : ℤ) := by
    rw [Int.tmod_eq_emod (by omega) (by decide)]
    simp only [Minute, Second]
    omega
  have hfrac : (((s % 60) * 1000000000 : ℕ) : ℚ) / ((60000000000 : ℕ) : ℚ) ≤
      ((2 ^ 6 - 1 : ℕ) : ℚ) / 2 ^ 6 := by
    rw [div_le_div_iff₀ (by norm_num) (by norm_num)]
    have h : (s % 60) * 1000000000 * 2 ^ 6 ≤ (2 ^ 6 - 1) * 60000000000 := by omega
    exact_mod_cast h
  have key := float64_int_plus_fraction (s / 60) ((s % 60) * 1000000000) 60000000000 6
    (by omega) (by omega) (by norm_num) (by norm_num) hfrac
  unfold Minutes
  simp only [hdiv, hmod]
  have hc : ((60 : ℚ) * 1000000000) = ((60000000000 : ℕ) : ℚ) := by norm_num
  have hq : ((2 ^ 6 - 1 : ℕ) : ℚ) / 2 ^ 6 = 63 / 64 := by norm_num
  rw [hc]
  rw [hq] at key
  exact key

theorem intOfFloat64_of_bounds (a : ℕ) (y q : ℚ) (hq : q < 1) (h1 : (a : ℚ) ≤ y)
    (h2 : y ≤ (a : ℚ) + q) : intOfFloat64 y = (a : ℤ) := by
  have h0 : (0 : ℚ) ≤ y := le_trans (by positivity) h1
  unfold intOfFloat64
  rw [if_pos h0, Int.floor_eq_iff]
  constructor
  · exact_mod_cast h1
  · push_cast
    linarith

theorem days_of_hours (h : ℕ) (y : ℚ) (hh : h < 2 ^ 34) (h1 : (h : ℚ) ≤ y)
    (h2 : y ≤ (h : ℚ) + 4095 / 4096) :
    intOfFloat64 (float64Div y 24) = ((h / 24 : ℕ) : ℤ) := by
  have hD : 24 * (h / 24) ≤ h ∧ h ≤ 24 * (h / 24) + 23 := by omega
  have hDq1 : (24 : ℚ) * ((h / 24 : ℕ) : ℚ) ≤ (h : ℚ) := by exact_mod_cast hD.1
  have hDq2 : (h : ℚ) ≤ 24 * ((h / 24 : ℕ) : ℚ) + 23 := by exact_mod_cast hD.2
  have e1 : (((h / 24) * 2 ^ 17 : ℕ) : ℚ) / 2 ^ 17 = ((h / 24 : ℕ) : ℚ) := by
    rw [Nat.cast_mul, Nat.cast_pow, Nat.cast_ofNat]
    exact mul_div_cancel_right₀ _ (by norm_num)
  have e2 : (((h / 24) * 2 ^ 17 + (2 ^ 17 - 1) : ℕ) : ℚ) / 2 ^ 17 =
      ((h / 24 : ℕ) : ℚ) + 131071 / 131072 := by
    rw [Nat.cast_add]
    push_cast
    field_simp
    norm_num
  have hb := roundFloat64_between ((h / 24) * 2 ^ 17) ((h / 24) * 2 ^ 17 + (2 ^ 17 - 1)) 17
    (by omega) (y / 24)
    (by rw [e1, le_div_iff₀ (by norm_num)]; linarith)
    (by rw [e2, div_le_iff₀ (by norm_num)]; linarith)
  rw [e1, e2] at hb
  exact intOfFloat64_of_bounds (h / 24) _ (131071 / 131072) (by norm_num) hb.1 hb.2

theorem wrapInt64_uptime (s : ℕ) (hs : s * 10 ^ 9 < 2 ^ 63) :
    wrapInt64 (wrapInt64 (s : ℤ) * Second) = (s : ℤ) * 1000000000 := by
  have hs' : s < 9223372037 := by omega
  have h1 : wrapInt64 (s : ℤ) = (s : ℤ) := by
    unfold wrapInt64
    norm_num
    omega
  rw [h1]
  unfold wrapInt64 Second
  norm_num
  omega

/-- C12: for an uptime of `s` seconds with `s * 10 ^ 9 < 2 ^ 63`, the uptime
string is "<D>d <H>h <M>m" with `D = s / 86400`, `H = s / 3600 mod 24` and
`M = s / 60 mod 60`; so `H < 24`, `M < 60` and `s` lies in the minute that
starts at `86400 D + 3600 H + 60 M`. When `host.Info` fails the uptime string
is "Unknown". -/
theorem collectDateTimeInfo_uptime (now : Now) (hostInfo : InfoStat) (i : Info)
    (hs : hostInfo.Uptime * 10 ^ 9 < 2 ^ 63) :
    (collectDateTimeInfo now (some hostInfo) i).Uptime =
      sprintD ((hostInfo.Uptime / 86400 : ℕ) : ℤ) ++ "d " ++
      sprintD ((hostInfo.Uptime / 3600 % 24 : ℕ) : ℤ) ++ "h " ++
      sprintD ((hostInfo.Uptime / 60 % 60 : ℕ) : ℤ) ++ "m" ∧
    hostInfo.Uptime / 3600 % 24 < 24 ∧ hostInfo.Uptime / 60 % 60 < 60 ∧
    86400 * (hostInfo.Uptime / 86400) + 3600 * (hostInfo.Uptime / 3600 % 24) +
        60 * (hostInfo.Uptime / 60 % 60) ≤ hostInfo.Uptime ∧
    hostInfo.Uptime < 86400 * (hostInfo.Uptime / 86400) +
        3600 * (hostInfo.Uptime / 3600 % 24) + 60 * (hostInfo.Uptime / 60 % 60) + 60 ∧
    (collectDateTimeInfo now none i).Uptime = "Unknown" := by
  have hs' : hostInfo.Uptime < 9223372037 := by omega
  have hH := Hours_bounds hostInfo.Uptime hs
  have hM := Minutes_bounds hostInfo.Uptime hs
  have hhours : intOfFloat64 (Hours ((hostInfo.Uptime : ℤ) * 1000000000)) =
      ((hostInfo.Uptime / 3600 : ℕ) : ℤ) :=
    intOfFloat64_of_bounds _ _ (4095 / 4096) (by norm_num) hH.1 hH.2
  have hminutes : intOfFloat64 (Minutes ((hostInfo.Uptime : ℤ) * 1000000000)) =
      ((hostInfo.Uptime / 60 : ℕ) : ℤ) :=
    intOfFloat64_of_bounds _ _ (63 / 64) (by norm_num) hM.1 hM.2
  have hdays : intOfFloat64 (float64Div (Hours ((hostInfo.Uptime : ℤ) * 1000000000)) 24) =
      ((hostInfo.Uptime / 86400 : ℕ) : ℤ) := by
    rw [days_of_hours (hostInfo.Uptime / 3600) _ (by omega) hH.1 hH.2]
    congr 1
    omega
  have hmod24 : Int.tmod ((hostInfo.Uptime / 3600 : ℕ) : ℤ) 24 =
      ((hostInfo.Uptime / 3600 % 24 : ℕ) : ℤ) := by
    rw [Int.tmod_eq_emod (by omega) (by decide)]
    omega
  have hmod60 : Int.tmod ((hostInfo.Uptime / 60 : ℕ) : ℤ) 60 =
      ((hostInfo.Uptime / 60 % 60 : ℕ) : ℤ) := by
    rw [Int.tmod_eq_emod (by omega) (by decide)]
    omega
  refine ⟨?_, by omega, by omega, by omega, by omega, rfl⟩
  simp only [collectDateTimeInfo, wrapInt64_uptime _ hs, hhours, hminutes, hdays, hmod24,
    hmod60]

/-- Witness for C12: an uptime of 93784 seconds (1 day, 2 hours, 3 minutes and
4 seconds) is shown as "1d 2h 3m". -/
theorem collectDateTimeInfo_uptime_witness :
    (collectDateTimeInfo
      { Weekday := "Wednesday", Day := 4, Month := "November", Year := 2026,
        Clock := "16:20:00" }
      (some { Uptime := 93784, Platform := "ubuntu", PlatformVersion := "24.04",
              KernelVersion := "6.8.0" }) Info.zero).Uptime = "1d 2h 3m" := by
  have h := (collectDateTimeInfo_uptime
    { Weekday := "Wednesday", Day := 4, Month := "November", Year := 2026,
      Clock := "16:20:00" }
    { Uptime := 93784, Platform := "ubuntu", PlatformVersion := "24.04",
      KernelVersion := "6.8.0" } Info.zero (by decide)).1
  rw [h]
  decide

end OsInfo
